import Mathlib

/-!
Verification development for the purchase-order to sales-order extraction
pipeline (modules src/simplified_data_extractor.py and src/data_extractor.py).

Modelling conventions used throughout this file:

* Python dictionaries with a fixed key set become Lean structures; a key that
  may be absent becomes an Option-typed field (absence = none).
* Monetary values are stored as decimal strings in the simplified pipeline and
  as Python floats in the class-based pipeline; both are idealized here as
  rational numbers, with the string/float round-trip taken as the identity and
  the literal 0.085 read as the rational 17/200.  Python round(x, 2) is
  modelled as round-half-to-even at two decimal places on rationals.
* Code that can raise (the bare float(...) calls on stripped table cells in
  simplified_data_extractor.extract_line_items) is modelled in the Except
  monad; Except.error models an uncaught ValueError.
* Lowercasing is modelled on ASCII letters (the keyword sets and headers the
  source compares are ASCII).
* Regular-expression searches are modelled by a small backtracking matcher
  over an explicit pattern syntax; each Python pattern is transcribed into
  that syntax at its use site.  The matcher is fuel-bounded; the fuel is far
  larger than any search performed in this file needs.
-/

/-! ## Small string and number helpers -/

/-- ASCII lower-casing of one character, as Python str.lower acts on ASCII. -/
def asciiLower (c : Char) : Char :=
  if 'A' ≤ c ∧ c ≤ 'Z' then Char.ofNat (c.toNat + 32) else c

/-- ASCII lower-casing of a string. -/
def lowerStr (s : String) : String :=
  String.mk (s.data.map asciiLower)

/-- Python str.strip: remove surrounding whitespace. -/
def pyStrip (s : String) : String := s.trim

/-- Membership of a character class given as a list. -/
def charIn (c : Char) (l : List Char) : Bool := l.contains c

/-- Whitespace characters recognised by Python \s (ASCII portion). -/
def isPySpace (c : Char) : Bool :=
  charIn c [' ', '\t', '\n', '\r', '\x0b', '\x0c']

/-- Decimal digit test. -/
def isDig (c : Char) : Bool := '0' ≤ c ∧ c ≤ '9'

/-- ASCII letter test. -/
def isAsciiLetter (c : Char) : Bool :=
  ('A' ≤ c ∧ c ≤ 'Z') ∨ ('a' ≤ c ∧ c ≤ 'z')

/-- ASCII alphanumeric test, the class [A-Za-z0-9]. -/
def isAlnumA (c : Char) : Bool := isAsciiLetter c ∨ isDig c

/-- Whether the pattern list occurs as a contiguous sublist; substring test
for Python "kw in header". -/
def listStarts : List Char → List Char → Bool
  | [], _ => true
  | _ :: _, [] => false
  | p :: ps, c :: cs => p = c ∧ listStarts ps cs

/-- First position at which the pattern occurs, if any. -/
def listFind : List Char → List Char → Option Nat
  | p, [] => if listStarts p [] then some 0 else none
  | p, c :: cs =>
    if listStarts p (c :: cs) then some 0
    else (listFind p cs).map (· + 1)

/-- Python "pat in s" substring containment. -/
def strHas (s pat : String) : Bool := (listFind pat.data s.data).isSome

/-- Python s.find(pat): position of the first occurrence. -/
def strFind (s pat : String) : Option Nat := listFind pat.data s.data

/-- Value of a list of decimal digit characters. -/
def digitsVal (l : List Char) : Nat :=
  l.foldl (fun a c => a * 10 + (c.toNat - '0'.toNat)) 0

/-- Python float(s) on a string of digits, dots and surrounding whitespace:
succeeds when there is at least one digit and at most one dot (signs and
exponents never occur at the call sites modelled here).  Returns none exactly
when Python float would raise ValueError. -/
def pyFloat? (s : String) : Option ℚ :=
  let cs := s.trim.data
  if cs.isEmpty then none
  else if cs.all (fun c => isDig c ∨ c = '.') ∧
          (cs.filter (fun c => c = '.')).length ≤ 1 ∧
          cs.any (fun c => isDig c) then
    let intPart := cs.takeWhile (fun c => c ≠ '.')
    let fracPart := (cs.dropWhile (fun c => c ≠ '.')).drop 1
    some ((digitsVal intPart : ℚ) + (digitsVal fracPart : ℚ) / (10 ^ fracPart.length))
  else none

/-- Strip every character that is not a digit or a dot:
re.sub applied with the pattern that keeps only digits and dots. -/
def stripNonNum (s : String) : String :=
  String.mk (s.data.filter (fun c => isDig c ∨ c = '.'))

/-- Keep only ASCII alphanumerics: re.sub applied with the class that drops
everything outside A-Za-z0-9. -/
def alnumOnly (s : String) : String :=
  String.mk (s.data.filter isAlnumA)

/-- Floor of a rational as an integer, computed by floor division so that the
kernel can evaluate it. -/
def qfloor (q : ℚ) : ℤ := q.num.fdiv q.den

/-- Round half to even to an integer, as Python round does on exact values. -/
def rndHE (q : ℚ) : ℤ :=
  let f := qfloor q
  let r := q - (f : ℚ)
  if r < 1/2 then f
  else if 1/2 < r then f + 1
  else if f % 2 = 0 then f else f + 1

/-- Python round(x, 2) idealized on rationals. -/
def round2 (q : ℚ) : ℚ := (rndHE (q * 100) : ℚ) / 100

/-- Equality of Except values is decidable componentwise. -/
instance {ε α : Type} [DecidableEq ε] [DecidableEq α] : DecidableEq (Except ε α) :=
  fun a b =>
    match a, b with
    | .error x, .error y =>
      if h : x = y then .isTrue (congrArg Except.error h)
      else .isFalse (fun hh => h (Except.error.inj hh))
    | .ok x, .ok y =>
      if h : x = y then .isTrue (congrArg Except.ok h)
      else .isFalse (fun hh => h (Except.ok.inj hh))
    | .error _, .ok _ => .isFalse (fun hh => Except.noConfusion hh)
    | .ok _, .error _ => .isFalse (fun hh => Except.noConfusion hh)

/-! ## Data model shared by the two extraction pipelines

The shapes follow the dictionaries initialized in
simplified_data_extractor.extract_data and DataExtractor.__init__. -/

/-- One table of the parsed document: rows of cell strings. -/
abbrev Table := List (List String)

/-- The parsed document handed to the extraction core: free text plus tables. -/
structure ParsedDocument where
  text : String
  tables : List Table
  deriving Repr, DecidableEq

/-- The client_info sub-dictionary. -/
structure ClientInfo where
  name : Option String := none
  phone : Option String := none
  email : Option String := none
  address : Option String := none
  deriving Repr, DecidableEq

/-- The ship_to sub-dictionary. -/
structure ShipTo where
  name : Option String := none
  address : Option String := none
  phone : Option String := none
  deriving Repr, DecidableEq

/-- The po_details sub-dictionary.  Field names follow the snake_case variant;
the simplified pipeline uses the same fields under title-case keys
(PO Number, Creation Date, Due Date, Payment Terms, Total Amount, Subtotal,
Tax, Shipping, Comments).  Monetary values are rationals (see header). -/
structure PODetails where
  po_number : Option String := none
  creation_date : Option String := none
  due_date : Option String := none
  payment_terms : Option String := none
  total_amount : Option ℚ := none
  subtotal : Option ℚ := none
  tax : Option ℚ := none
  shipping : Option ℚ := none
  comments : Option String := none
  deriving Repr, DecidableEq

/-- One line item. -/
structure LineItem where
  description : Option String := none
  item_code : Option String := none
  quantity : Option ℚ := none
  unit_price : Option ℚ := none
  total_price : Option ℚ := none
  deriving Repr, DecidableEq

/-- The extraction record.  The simplified pipeline creates the ship_to
sub-dictionary lazily on first write; it is modelled as an always-present
record whose fields are all absent until written. -/
structure ExtractionResult where
  client_info : ClientInfo := {}
  po_details : PODetails := {}
  ship_to : ShipTo := {}
  line_items : List LineItem := []
  deriving Repr, DecidableEq

/-- The result structure as initialized at the top of extract_data and of
DataExtractor.extract. -/
def emptyResult : ExtractionResult := {}

/-! ## simplified_data_extractor.validate_and_clean_data

The function body is one linear sequence of defaulting blocks; each block is
translated as one small function below and validate_and_clean_data is their
composition in source order.  The current-date string produced by
datetime.now().strftime is passed in as the parameter today. -/

/-- Block 1: if the PO Number key is absent, derive it from the client name
when one exists (the prefix PO- plus the first five alphanumeric characters);
otherwise leave it absent. -/
def vcdPoNumber (r : ExtractionResult) : ExtractionResult :=
  if r.po_details.po_number.isNone then
    match r.client_info.name with
    | some n =>
      { r with po_details :=
          { r.po_details with po_number := some ("PO-" ++ (alnumOnly n).take 5) } }
    | none => r
  else r

/-- Block 2a: default Creation Date to the current date. -/
def vcdCreation (today : String) (r : ExtractionResult) : ExtractionResult :=
  if r.po_details.creation_date.isNone then
    { r with po_details := { r.po_details with creation_date := some today } }
  else r

/-- Block 2b: default Due Date to the current date (the comment in the source
mentions 30 days from creation but the code uses the same date). -/
def vcdDue (today : String) (r : ExtractionResult) : ExtractionResult :=
  if r.po_details.due_date.isNone then
    { r with po_details := { r.po_details with due_date := some today } }
  else r

/-- Block 2: default Creation Date and Due Date. -/
def vcdDates (today : String) (r : ExtractionResult) : ExtractionResult :=
  vcdDue today (vcdCreation today r)

/-- Block 3: default Payment Terms. -/
def vcdTerms (r : ExtractionResult) : ExtractionResult :=
  if r.po_details.payment_terms.isNone then
    { r with po_details := { r.po_details with payment_terms := some "Net 30" } }
  else r

/-- Sum of total_price over the line items, absent values contributing 0:
the generator expression summed for the Subtotal default. -/
def sumTotalPrices (items : List LineItem) : ℚ :=
  items.foldl (fun a it => a + it.total_price.getD 0) 0

/-- Block 4: derive Subtotal from the line items when absent and items exist. -/
def vcdSubtotal (r : ExtractionResult) : ExtractionResult :=
  if r.po_details.subtotal.isNone ∧ r.line_items ≠ [] then
    { r with po_details :=
        { r.po_details with subtotal := some (round2 (sumTotalPrices r.line_items)) } }
  else r

/-- The fixed default tax rate 8.5 percent. -/
def taxRate : ℚ := 17 / 200

/-- Block 5: default Tax to the fixed rate applied to Subtotal, when Tax is
absent and Subtotal is present. -/
def vcdTax (r : ExtractionResult) : ExtractionResult :=
  if r.po_details.tax.isNone then
    match r.po_details.subtotal with
    | some s =>
      { r with po_details := { r.po_details with tax := some (round2 (s * taxRate)) } }
    | none => r
  else r

/-- Block 6: default Shipping to the flat 75.00. -/
def vcdShipping (r : ExtractionResult) : ExtractionResult :=
  if r.po_details.shipping.isNone then
    { r with po_details := { r.po_details with shipping := some 75 } }
  else r

/-- Block 7: default Total Amount to the rounded sum of Subtotal, Tax and
Shipping, each read with default 0. -/
def vcdTotal (r : ExtractionResult) : ExtractionResult :=
  if r.po_details.total_amount.isNone then
    let t := round2 (r.po_details.subtotal.getD 0 + r.po_details.tax.getD 0 +
                     r.po_details.shipping.getD 0)
    { r with po_details := { r.po_details with total_amount := some t } }
  else r

/-- The placeholder line item appended when extraction yielded none. -/
def defaultLineItem : LineItem :=
  { item_code := some "DEFAULT001"
    description := some "Standard Product"
    quantity := some 1
    unit_price := some 100
    total_price := some 100 }

/-- Block 8: guarantee at least one line item. -/
def vcdItems (r : ExtractionResult) : ExtractionResult :=
  if r.line_items = [] then { r with line_items := [defaultLineItem] }
  else r

/-- simplified_data_extractor.validate_and_clean_data: the blocks above in
source order. -/
def validate_and_clean_data (today : String) (r : ExtractionResult) : ExtractionResult :=
  vcdItems (vcdTotal (vcdShipping (vcdTax (vcdSubtotal (vcdTerms (vcdDates today (vcdPoNumber r)))))))

/-! ## simplified_data_extractor: table extraction

The source converts each table to a pandas DataFrame.  For a list of ragged
rows the DataFrame is rectangular: its width is the longest row length and
missing cells are NaN, whose str() is the string nan.  The helpers below
reproduce that padding. -/

/-- Width of the DataFrame built from a table: the longest row. -/
def ncols (t : Table) : Nat := t.foldl (fun a r => max a r.length) 0

/-- A row padded to the DataFrame width; a missing cell prints as nan. -/
def padRow (n : Nat) (row : List String) : List String :=
  row ++ List.replicate (n - row.length) "nan"

/-- Whether the DataFrame of the table is empty: no rows or no columns. -/
def dfEmpty (t : Table) : Bool := t.length = 0 ∨ ncols t = 0

/-- Item keywords of is_line_items_table. -/
def itemKeywords : List String := ["item", "product", "description", "part", "sku"]

/-- Quantity keywords of is_line_items_table. -/
def qtyKeywords : List String := ["qty", "quantity", "amount", "units"]

/-- Price keywords of is_line_items_table. -/
def priceKeywords : List String := ["price", "rate", "unit price", "cost"]

/-- Whether some header cell contains some keyword of the group. -/
def anyHeaderHas (headers : List String) (keywords : List String) : Bool :=
  headers.any (fun h => keywords.any (fun k => strHas h k))

/-- Lower-cased header row of the DataFrame: row 0, padded to the width. -/
def dfHeaders (t : Table) : List String :=
  (padRow (ncols t) (t.headD [])).map lowerStr

/-- simplified_data_extractor.is_line_items_table. -/
def is_line_items_table (t : Table) : Bool :=
  if dfEmpty t ∨ ncols t < 3 then false
  else
    let headers := dfHeaders t
    anyHeaderHas headers itemKeywords ∧ anyHeaderHas headers qtyKeywords ∧
      anyHeaderHas headers priceKeywords

/-- simplified_data_extractor.find_column_index: index of the first header
containing any of the keywords. -/
def find_column_index (headers : List String) (keywords : List String) : Option Nat :=
  (headers.findIdx? (fun h => keywords.any (fun k => strHas h k)))

/-- The five column indices identified in extract_line_items. -/
structure ColIdx where
  item : Option Nat
  code : Option Nat
  qty : Option Nat
  price : Option Nat
  total : Option Nat
  deriving Repr, DecidableEq

/-- Column identification block of extract_line_items. -/
def lineItemCols (headers : List String) : ColIdx :=
  { item := find_column_index headers ["item", "product", "description", "part", "sku"]
    code := find_column_index headers ["code", "sku", "part number", "item number", "id"]
    qty := find_column_index headers ["qty", "quantity", "amount", "units"]
    price := find_column_index headers ["price", "rate", "unit price", "cost"]
    total := find_column_index headers ["total", "amount", "line total", "extended"] }

/-- A string field of the row: set whenever the column was identified and is
in range (the row has already been padded to the DataFrame width, so the
range test compares against that width as len(row) does). -/
def strField (col : Option Nat) (n : Nat) (row : List String) : Option String :=
  match col with
  | some i => if i < n then some (pyStrip (row.getD i "")) else none
  | none => none

/-- A numeric field of the row: the cell is stripped of every character that
is not a digit or dot; an empty remainder leaves the field absent; a nonempty
remainder is passed to float, whose ValueError is an error of the Except
monad. -/
def numField (col : Option Nat) (n : Nat) (row : List String) :
    Except String (Option ℚ) :=
  match col with
  | some i =>
    if i < n then
      let cleaned := stripNonNum (pyStrip (row.getD i ""))
      if cleaned = "" then .ok none
      else
        match pyFloat? cleaned with
        | some v => .ok (some v)
        | none => .error "could not convert string to float"
    else .ok none
  | none => .ok none

/-- The loop body of extract_line_items that builds one line item from a
padded row: description, item code, quantity, unit price, total price, and
the derivation of a missing total from quantity times unit price. -/
def buildItem (cols : ColIdx) (n : Nat) (row : List String) :
    Except String LineItem :=
  let desc := strField cols.item n row
  let code := strField cols.code n row
  match numField cols.qty n row with
  | .error e => .error e
  | .ok qty =>
    match numField cols.price n row with
    | .error e => .error e
    | .ok price =>
      match numField cols.total n row with
      | .error e => .error e
      | .ok total0 =>
        let total :=
          match qty, price, total0 with
          | some q, some p, none => some (q * p)
          | _, _, t => t
        .ok { description := desc, item_code := code, quantity := qty,
              unit_price := price, total_price := total }

/-- Whether every cell of the row is empty after stripping. -/
def rowAllEmpty (row : List String) : Bool :=
  row.all (fun c => pyStrip c = "")

/-- The retention test at the end of the loop body: a description or an item
code, and a quantity. -/
def keepItem (li : LineItem) : Bool :=
  (li.description.isSome ∨ li.item_code.isSome) ∧ li.quantity.isSome

/-- One iteration of the row loop: skip rows that are entirely empty,
otherwise build the item and retain it only when keepItem holds. -/
def processRow (cols : ColIdx) (n : Nat) (row : List String) :
    Except String (Option LineItem) :=
  if rowAllEmpty row then .ok none
  else
    match buildItem cols n row with
    | .error e => .error e
    | .ok li => .ok (if keepItem li then some li else none)

/-- The row loop of extract_line_items over the padded data rows. -/
def rowsToItems (cols : ColIdx) (n : Nat) : List (List String) →
    Except String (List LineItem)
  | [] => .ok []
  | row :: rest =>
    match processRow cols n (padRow n row) with
    | .error e => .error e
    | .ok o =>
      match rowsToItems cols n rest with
      | .error e => .error e
      | .ok tail => .ok (match o with | some li => li :: tail | none => tail)

/-- simplified_data_extractor.extract_line_items, returning the items the
call appends to the result.  When the DataFrame has more than one row the
first row is the header and the rest are data; otherwise the whole frame is
data and the headers are the stringified column indices 0, 1, ... (which
contain no column keyword). -/
def extract_line_items (t : Table) : Except String (List LineItem) :=
  let n := ncols t
  let headers :=
    if t.length > 1 then dfHeaders t
    else (List.range n).map (fun i => lowerStr (toString i))
  let dataRows := if t.length > 1 then t.tail else t
  rowsToItems (lineItemCols headers) n dataRows

/-- simplified_data_extractor.extract_from_tables: every table that looks
like a line-items table contributes its extracted items, appended in order. -/
def extract_from_tables (tables : List Table) (r : ExtractionResult) :
    Except String ExtractionResult :=
  match tables with
  | [] => .ok r
  | t :: ts =>
    if is_line_items_table t then
      match extract_line_items t with
      | .error e => .error e
      | .ok items => extract_from_tables ts { r with line_items := r.line_items ++ items }
    else extract_from_tables ts r

/-! ## DataExtractor._find_line_items_table (src/data_extractor.py, lines 335 to 363)

This function works on the raw list-of-rows tables (no DataFrame padding). -/

namespace DataExtractor

/-- The header keyword list of _find_line_items_table. -/
def lineItemHeaderKeywords : List String :=
  ["item", "code", "description", "qty", "quantity", "price", "amount", "total"]

/-- Lower-cased cells of the first row, dropping falsy (empty) cells. -/
def headerRowCells (t : Table) : List String :=
  ((t.headD []).filter (fun c => c ≠ "")).map lowerStr

/-- How many of the eight header keywords occur in some header cell. -/
def headerMatchCount (t : Table) : Nat :=
  (lineItemHeaderKeywords.filter (fun k => (headerRowCells t).any (fun c => strHas c k))).length

/-- First loop of _find_line_items_table: return the first nonempty table
whose header row matches at least three keywords. -/
def findByHeaders : List Table → Option Table
  | [] => none
  | t :: ts =>
    if t ≠ [] ∧ 3 ≤ headerMatchCount t then some t else findByHeaders ts

/-- Second loop: the first table with strictly the most rows so far, skipping
empty tables; starts from no table and zero rows. -/
def largestAux : List Table → Option Table → Nat → Option Table
  | [], best, _ => best
  | t :: ts, best, maxRows =>
    if t ≠ [] ∧ maxRows < t.length then largestAux ts (some t) t.length
    else largestAux ts best maxRows

/-- DataExtractor._find_line_items_table: keyword pass, then largest-table
fallback. -/
def find_line_items_table (tables : List Table) : Option Table :=
  match findByHeaders tables with
  | some t => some t
  | none => largestAux tables none 0

end DataExtractor

/-! ## Field-effect lemmas for the defaulting blocks -/

@[simp] lemma vcdPoNumber_client_info (r : ExtractionResult) :
    (vcdPoNumber r).client_info = r.client_info := by
  unfold vcdPoNumber; split
  · split <;> rfl
  · rfl

@[simp] lemma vcdPoNumber_line_items (r : ExtractionResult) :
    (vcdPoNumber r).line_items = r.line_items := by
  unfold vcdPoNumber; split
  · split <;> rfl
  · rfl

@[simp] lemma vcdPoNumber_creation (r : ExtractionResult) :
    (vcdPoNumber r).po_details.creation_date = r.po_details.creation_date := by
  unfold vcdPoNumber; split
  · split <;> rfl
  · rfl

@[simp] lemma vcdPoNumber_due (r : ExtractionResult) :
    (vcdPoNumber r).po_details.due_date = r.po_details.due_date := by
  unfold vcdPoNumber; split
  · split <;> rfl
  · rfl

@[simp] lemma vcdPoNumber_terms (r : ExtractionResult) :
    (vcdPoNumber r).po_details.payment_terms = r.po_details.payment_terms := by
  unfold vcdPoNumber; split
  · split <;> rfl
  · rfl

@[simp] lemma vcdPoNumber_subtotal (r : ExtractionResult) :
    (vcdPoNumber r).po_details.subtotal = r.po_details.subtotal := by
  unfold vcdPoNumber; split
  · split <;> rfl
  · rfl

@[simp] lemma vcdPoNumber_tax (r : ExtractionResult) :
    (vcdPoNumber r).po_details.tax = r.po_details.tax := by
  unfold vcdPoNumber; split
  · split <;> rfl
  · rfl

@[simp] lemma vcdPoNumber_shipping (r : ExtractionResult) :
    (vcdPoNumber r).po_details.shipping = r.po_details.shipping := by
  unfold vcdPoNumber; split
  · split <;> rfl
  · rfl

@[simp] lemma vcdPoNumber_total (r : ExtractionResult) :
    (vcdPoNumber r).po_details.total_amount = r.po_details.total_amount := by
  unfold vcdPoNumber; split
  · split <;> rfl
  · rfl

/-- The exact effect of block 1 on the PO number: keep it when present,
otherwise synthesize from the client name when that exists, else leave
absent. -/
@[simp] lemma vcdPoNumber_po (r : ExtractionResult) :
    (vcdPoNumber r).po_details.po_number =
      (r.po_details.po_number).or
        (r.client_info.name.map (fun n => "PO-" ++ (alnumOnly n).take 5)) := by
  rcases hpo : r.po_details.po_number with _ | v <;>
    rcases hn : r.client_info.name with _ | n <;>
    simp [vcdPoNumber, hpo, hn]

@[simp] lemma vcdCreation_line_items (t : String) (r : ExtractionResult) :
    (vcdCreation t r).line_items = r.line_items := by
  unfold vcdCreation; split <;> rfl

@[simp] lemma vcdCreation_po (t : String) (r : ExtractionResult) :
    (vcdCreation t r).po_details.po_number = r.po_details.po_number := by
  unfold vcdCreation; split <;> rfl

@[simp] lemma vcdCreation_due (t : String) (r : ExtractionResult) :
    (vcdCreation t r).po_details.due_date = r.po_details.due_date := by
  unfold vcdCreation; split <;> rfl

@[simp] lemma vcdCreation_terms (t : String) (r : ExtractionResult) :
    (vcdCreation t r).po_details.payment_terms = r.po_details.payment_terms := by
  unfold vcdCreation; split <;> rfl

@[simp] lemma vcdCreation_subtotal (t : String) (r : ExtractionResult) :
    (vcdCreation t r).po_details.subtotal = r.po_details.subtotal := by
  unfold vcdCreation; split <;> rfl

@[simp] lemma vcdCreation_tax (t : String) (r : ExtractionResult) :
    (vcdCreation t r).po_details.tax = r.po_details.tax := by
  unfold vcdCreation; split <;> rfl

@[simp] lemma vcdCreation_shipping (t : String) (r : ExtractionResult) :
    (vcdCreation t r).po_details.shipping = r.po_details.shipping := by
  unfold vcdCreation; split <;> rfl

@[simp] lemma vcdCreation_total (t : String) (r : ExtractionResult) :
    (vcdCreation t r).po_details.total_amount = r.po_details.total_amount := by
  unfold vcdCreation; split <;> rfl

@[simp] lemma vcdCreation_creation (t : String) (r : ExtractionResult) :
    (vcdCreation t r).po_details.creation_date =
      some (r.po_details.creation_date.getD t) := by
  cases h : r.po_details.creation_date <;> simp [vcdCreation, h]

@[simp] lemma vcdDue_line_items (t : String) (r : ExtractionResult) :
    (vcdDue t r).line_items = r.line_items := by
  unfold vcdDue; split <;> rfl

@[simp] lemma vcdDue_po (t : String) (r : ExtractionResult) :
    (vcdDue t r).po_details.po_number = r.po_details.po_number := by
  unfold vcdDue; split <;> rfl

@[simp] lemma vcdDue_creation (t : String) (r : ExtractionResult) :
    (vcdDue t r).po_details.creation_date = r.po_details.creation_date := by
  unfold vcdDue; split <;> rfl

@[simp] lemma vcdDue_terms (t : String) (r : ExtractionResult) :
    (vcdDue t r).po_details.payment_terms = r.po_details.payment_terms := by
  unfold vcdDue; split <;> rfl

@[simp] lemma vcdDue_subtotal (t : String) (r : ExtractionResult) :
    (vcdDue t r).po_details.subtotal = r.po_details.subtotal := by
  unfold vcdDue; split <;> rfl

@[simp] lemma vcdDue_tax (t : String) (r : ExtractionResult) :
    (vcdDue t r).po_details.tax = r.po_details.tax := by
  unfold vcdDue; split <;> rfl

@[simp] lemma vcdDue_shipping (t : String) (r : ExtractionResult) :
    (vcdDue t r).po_details.shipping = r.po_details.shipping := by
  unfold vcdDue; split <;> rfl

@[simp] lemma vcdDue_total (t : String) (r : ExtractionResult) :
    (vcdDue t r).po_details.total_amount = r.po_details.total_amount := by
  unfold vcdDue; split <;> rfl

@[simp] lemma vcdDue_due (t : String) (r : ExtractionResult) :
    (vcdDue t r).po_details.due_date = some (r.po_details.due_date.getD t) := by
  cases h : r.po_details.due_date <;> simp [vcdDue, h]

@[simp] lemma vcdTerms_line_items (r : ExtractionResult) :
    (vcdTerms r).line_items = r.line_items := by
  unfold vcdTerms; split <;> rfl

@[simp] lemma vcdTerms_po (r : ExtractionResult) :
    (vcdTerms r).po_details.po_number = r.po_details.po_number := by
  unfold vcdTerms; split <;> rfl

@[simp] lemma vcdTerms_creation (r : ExtractionResult) :
    (vcdTerms r).po_details.creation_date = r.po_details.creation_date := by
  unfold vcdTerms; split <;> rfl

@[simp] lemma vcdTerms_due (r : ExtractionResult) :
    (vcdTerms r).po_details.due_date = r.po_details.due_date := by
  unfold vcdTerms; split <;> rfl

@[simp] lemma vcdTerms_subtotal (r : ExtractionResult) :
    (vcdTerms r).po_details.subtotal = r.po_details.subtotal := by
  unfold vcdTerms; split <;> rfl

@[simp] lemma vcdTerms_tax (r : ExtractionResult) :
    (vcdTerms r).po_details.tax = r.po_details.tax := by
  unfold vcdTerms; split <;> rfl

@[simp] lemma vcdTerms_shipping (r : ExtractionResult) :
    (vcdTerms r).po_details.shipping = r.po_details.shipping := by
  unfold vcdTerms; split <;> rfl

@[simp] lemma vcdTerms_total (r : ExtractionResult) :
    (vcdTerms r).po_details.total_amount = r.po_details.total_amount := by
  unfold vcdTerms; split <;> rfl

@[simp] lemma vcdTerms_terms (r : ExtractionResult) :
    (vcdTerms r).po_details.payment_terms =
      some (r.po_details.payment_terms.getD "Net 30") := by
  cases h : r.po_details.payment_terms <;> simp [vcdTerms, h]

@[simp] lemma vcdSubtotal_line_items (r : ExtractionResult) :
    (vcdSubtotal r).line_items = r.line_items := by
  unfold vcdSubtotal; split <;> rfl

@[simp] lemma vcdSubtotal_po (r : ExtractionResult) :
    (vcdSubtotal r).po_details.po_number = r.po_details.po_number := by
  unfold vcdSubtotal; split <;> rfl

@[simp] lemma vcdSubtotal_creation (r : ExtractionResult) :
    (vcdSubtotal r).po_details.creation_date = r.po_details.creation_date := by
  unfold vcdSubtotal; split <;> rfl

@[simp] lemma vcdSubtotal_due (r : ExtractionResult) :
    (vcdSubtotal r).po_details.due_date = r.po_details.due_date := by
  unfold vcdSubtotal; split <;> rfl

@[simp] lemma vcdSubtotal_terms (r : ExtractionResult) :
    (vcdSubtotal r).po_details.payment_terms = r.po_details.payment_terms := by
  unfold vcdSubtotal; split <;> rfl

@[simp] lemma vcdSubtotal_tax (r : ExtractionResult) :
    (vcdSubtotal r).po_details.tax = r.po_details.tax := by
  unfold vcdSubtotal; split <;> rfl

@[simp] lemma vcdSubtotal_shipping (r : ExtractionResult) :
    (vcdSubtotal r).po_details.shipping = r.po_details.shipping := by
  unfold vcdSubtotal; split <;> rfl

@[simp] lemma vcdSubtotal_total (r : ExtractionResult) :
    (vcdSubtotal r).po_details.total_amount = r.po_details.total_amount := by
  unfold vcdSubtotal; split <;> rfl

/-- The exact effect of block 4 on Subtotal. -/
lemma vcdSubtotal_subtotal (r : ExtractionResult) :
    (vcdSubtotal r).po_details.subtotal =
      if r.po_details.subtotal = none ∧ r.line_items ≠ [] then
        some (round2 (sumTotalPrices r.line_items))
      else r.po_details.subtotal := by
  cases h : r.po_details.subtotal <;> by_cases hi : r.line_items = [] <;>
    simp [vcdSubtotal, h, hi]

@[simp] lemma vcdTax_line_items (r : ExtractionResult) :
    (vcdTax r).line_items = r.line_items := by
  unfold vcdTax; split
  · split <;> rfl
  · rfl

@[simp] lemma vcdTax_po (r : ExtractionResult) :
    (vcdTax r).po_details.po_number = r.po_details.po_number := by
  unfold vcdTax; split
  · split <;> rfl
  · rfl

@[simp] lemma vcdTax_creation (r : ExtractionResult) :
    (vcdTax r).po_details.creation_date = r.po_details.creation_date := by
  unfold vcdTax; split
  · split <;> rfl
  · rfl

@[simp] lemma vcdTax_due (r : ExtractionResult) :
    (vcdTax r).po_details.due_date = r.po_details.due_date := by
  unfold vcdTax; split
  · split <;> rfl
  · rfl

@[simp] lemma vcdTax_terms (r : ExtractionResult) :
    (vcdTax r).po_details.payment_terms = r.po_details.payment_terms := by
  unfold vcdTax; split
  · split <;> rfl
  · rfl

@[simp] lemma vcdTax_subtotal (r : ExtractionResult) :
    (vcdTax r).po_details.subtotal = r.po_details.subtotal := by
  unfold vcdTax; split
  · split <;> rfl
  · rfl

@[simp] lemma vcdTax_shipping (r : ExtractionResult) :
    (vcdTax r).po_details.shipping = r.po_details.shipping := by
  unfold vcdTax; split
  · split <;> rfl
  · rfl

@[simp] lemma vcdTax_total (r : ExtractionResult) :
    (vcdTax r).po_details.total_amount = r.po_details.total_amount := by
  unfold vcdTax; split
  · split <;> rfl
  · rfl

/-- The exact effect of block 5 on Tax: when Tax is absent it becomes the
rounded fixed rate of the Subtotal whenever that is present. -/
lemma vcdTax_tax (r : ExtractionResult) :
    (vcdTax r).po_details.tax =
      if r.po_details.tax = none then
        r.po_details.subtotal.map (fun s => round2 (s * taxRate))
      else r.po_details.tax := by
  cases ht : r.po_details.tax <;> cases hs : r.po_details.subtotal <;>
    simp [vcdTax, ht, hs]

@[simp] lemma vcdShipping_line_items (r : ExtractionResult) :
    (vcdShipping r).line_items = r.line_items := by
  unfold vcdShipping; split <;> rfl

@[simp] lemma vcdShipping_po (r : ExtractionResult) :
    (vcdShipping r).po_details.po_number = r.po_details.po_number := by
  unfold vcdShipping; split <;> rfl

@[simp] lemma vcdShipping_creation (r : ExtractionResult) :
    (vcdShipping r).po_details.creation_date = r.po_details.creation_date := by
  unfold vcdShipping; split <;> rfl

@[simp] lemma vcdShipping_due (r : ExtractionResult) :
    (vcdShipping r).po_details.due_date = r.po_details.due_date := by
  unfold vcdShipping; split <;> rfl

@[simp] lemma vcdShipping_terms (r : ExtractionResult) :
    (vcdShipping r).po_details.payment_terms = r.po_details.payment_terms := by
  unfold vcdShipping; split <;> rfl

@[simp] lemma vcdShipping_subtotal (r : ExtractionResult) :
    (vcdShipping r).po_details.subtotal = r.po_details.subtotal := by
  unfold vcdShipping; split <;> rfl

@[simp] lemma vcdShipping_tax (r : ExtractionResult) :
    (vcdShipping r).po_details.tax = r.po_details.tax := by
  unfold vcdShipping; split <;> rfl

@[simp] lemma vcdShipping_total (r : ExtractionResult) :
    (vcdShipping r).po_details.total_amount = r.po_details.total_amount := by
  unfold vcdShipping; split <;> rfl

@[simp] lemma vcdShipping_shipping (r : ExtractionResult) :
    (vcdShipping r).po_details.shipping = some (r.po_details.shipping.getD 75) := by
  cases h : r.po_details.shipping <;> simp [vcdShipping, h]

@[simp] lemma vcdTotal_line_items (r : ExtractionResult) :
    (vcdTotal r).line_items = r.line_items := by
  unfold vcdTotal; split <;> rfl

@[simp] lemma vcdTotal_po (r : ExtractionResult) :
    (vcdTotal r).po_details.po_number = r.po_details.po_number := by
  unfold vcdTotal; split <;> rfl

@[simp] lemma vcdTotal_creation (r : ExtractionResult) :
    (vcdTotal r).po_details.creation_date = r.po_details.creation_date := by
  unfold vcdTotal; split <;> rfl

@[simp] lemma vcdTotal_due (r : ExtractionResult) :
    (vcdTotal r).po_details.due_date = r.po_details.due_date := by
  unfold vcdTotal; split <;> rfl

@[simp] lemma vcdTotal_terms (r : ExtractionResult) :
    (vcdTotal r).po_details.payment_terms = r.po_details.payment_terms := by
  unfold vcdTotal; split <;> rfl

@[simp] lemma vcdTotal_subtotal (r : ExtractionResult) :
    (vcdTotal r).po_details.subtotal = r.po_details.subtotal := by
  unfold vcdTotal; split <;> rfl

@[simp] lemma vcdTotal_tax (r : ExtractionResult) :
    (vcdTotal r).po_details.tax = r.po_details.tax := by
  unfold vcdTotal; split <;> rfl

@[simp] lemma vcdTotal_shipping (r : ExtractionResult) :
    (vcdTotal r).po_details.shipping = r.po_details.shipping := by
  unfold vcdTotal; split <;> rfl

@[simp] lemma vcdTotal_total (r : ExtractionResult) :
    (vcdTotal r).po_details.total_amount =
      some (r.po_details.total_amount.getD
        (round2 (r.po_details.subtotal.getD 0 + r.po_details.tax.getD 0 +
                 r.po_details.shipping.getD 0))) := by
  cases h : r.po_details.total_amount <;> simp [vcdTotal, h]

@[simp] lemma vcdItems_po_details (r : ExtractionResult) :
    (vcdItems r).po_details = r.po_details := by
  unfold vcdItems; split <;> rfl

/-- The exact effect of block 8 on the line items. -/
lemma vcdItems_line_items (r : ExtractionResult) :
    (vcdItems r).line_items =
      if r.line_items = [] then [defaultLineItem] else r.line_items := by
  by_cases h : r.line_items = [] <;> simp [vcdItems, h]

/-! ## No-op lemmas: each block leaves an already-populated record unchanged -/

lemma vcdPoNumber_id (r : ExtractionResult) (h : r.po_details.po_number.isSome) :
    vcdPoNumber r = r := by
  obtain ⟨v, hv⟩ := Option.isSome_iff_exists.mp h
  simp [vcdPoNumber, hv]

lemma vcdCreation_id (t : String) (r : ExtractionResult)
    (h : r.po_details.creation_date.isSome) : vcdCreation t r = r := by
  obtain ⟨v, hv⟩ := Option.isSome_iff_exists.mp h
  simp [vcdCreation, hv]

lemma vcdDue_id (t : String) (r : ExtractionResult)
    (h : r.po_details.due_date.isSome) : vcdDue t r = r := by
  obtain ⟨v, hv⟩ := Option.isSome_iff_exists.mp h
  simp [vcdDue, hv]

lemma vcdTerms_id (r : ExtractionResult)
    (h : r.po_details.payment_terms.isSome) : vcdTerms r = r := by
  obtain ⟨v, hv⟩ := Option.isSome_iff_exists.mp h
  simp [vcdTerms, hv]

lemma vcdSubtotal_id (r : ExtractionResult)
    (h : r.po_details.subtotal.isSome) : vcdSubtotal r = r := by
  obtain ⟨v, hv⟩ := Option.isSome_iff_exists.mp h
  simp [vcdSubtotal, hv]

lemma vcdTax_id (r : ExtractionResult)
    (h : r.po_details.tax.isSome) : vcdTax r = r := by
  obtain ⟨v, hv⟩ := Option.isSome_iff_exists.mp h
  simp [vcdTax, hv]

lemma vcdShipping_id (r : ExtractionResult)
    (h : r.po_details.shipping.isSome) : vcdShipping r = r := by
  obtain ⟨v, hv⟩ := Option.isSome_iff_exists.mp h
  simp [vcdShipping, hv]

lemma vcdTotal_id (r : ExtractionResult)
    (h : r.po_details.total_amount.isSome) : vcdTotal r = r := by
  obtain ⟨v, hv⟩ := Option.isSome_iff_exists.mp h
  simp [vcdTotal, hv]

lemma vcdItems_id (r : ExtractionResult) (h : r.line_items ≠ []) :
    vcdItems r = r := by
  simp [vcdItems, h]

/-! ## Claim C4 -/

/-- C4: Completion and Defaulting is idempotent on complete records: when the
PO number, creation date, due date, payment terms, subtotal, tax, shipping and
total amount are all present and the line items are nonempty, applying
validate_and_clean_data returns the record unchanged, so applying it again
changes nothing either. -/
theorem c4_defaulting_idempotent (today : String) (r : ExtractionResult)
    (h1 : r.po_details.po_number.isSome) (h2 : r.po_details.creation_date.isSome)
    (h3 : r.po_details.due_date.isSome) (h4 : r.po_details.payment_terms.isSome)
    (h5 : r.po_details.subtotal.isSome) (h6 : r.po_details.tax.isSome)
    (h7 : r.po_details.shipping.isSome) (h8 : r.po_details.total_amount.isSome)
    (h9 : r.line_items ≠ []) :
    validate_and_clean_data today r = r := by
  simp only [validate_and_clean_data, vcdDates]
  rw [vcdPoNumber_id r h1, vcdCreation_id today r h2, vcdDue_id today r h3,
      vcdTerms_id r h4, vcdSubtotal_id r h5, vcdTax_id r h6, vcdShipping_id r h7,
      vcdTotal_id r h8, vcdItems_id r h9]

/-- A concrete already-complete record. -/
def completeRec : ExtractionResult :=
  { client_info := { name := some "Acme Corp" }
    po_details :=
      { po_number := some "PO-16994", creation_date := some "01/05/2026"
        due_date := some "02/04/2026", payment_terms := some "Net 30"
        total_amount := some 100, subtotal := some 80, tax := some 5
        shipping := some 15 }
    line_items := [defaultLineItem] }

theorem c4_witness :
    (completeRec.po_details.po_number.isSome ∧ completeRec.po_details.creation_date.isSome ∧
     completeRec.po_details.due_date.isSome ∧ completeRec.po_details.payment_terms.isSome ∧
     completeRec.po_details.subtotal.isSome ∧ completeRec.po_details.tax.isSome ∧
     completeRec.po_details.shipping.isSome ∧ completeRec.po_details.total_amount.isSome ∧
     completeRec.line_items ≠ []) ∧
    validate_and_clean_data "07/04/2026" completeRec = completeRec :=
  ⟨by with_unfolding_all decide,
   c4_defaulting_idempotent "07/04/2026" completeRec (by with_unfolding_all decide)
     (by with_unfolding_all decide) (by with_unfolding_all decide)
     (by with_unfolding_all decide) (by with_unfolding_all decide)
     (by with_unfolding_all decide) (by with_unfolding_all decide)
     (by with_unfolding_all decide) (by with_unfolding_all decide)⟩

/-! ## Claim C2 (amended form) -/

/-- C2 (amended): after Completion and Defaulting the PO number equals the
extracted one when present; otherwise it is synthesized as PO- followed by the
first five alphanumeric characters of the client name (case preserved) when a
client name exists; when neither exists it remains absent. -/
theorem c2_po_number_defaulting (today : String) (r : ExtractionResult) :
    (validate_and_clean_data today r).po_details.po_number =
      (r.po_details.po_number).or
        (r.client_info.name.map (fun n => "PO-" ++ (alnumOnly n).take 5)) := by
  simp [validate_and_clean_data, vcdDates]

/-! ## Claim C5 -/

/-- C5 (amended): when subtotal, tax, shipping and the total amount are all
absent from the assembled record and at least one line item was extracted,
the engine derives the subtotal as the rounded sum of the line item totals,
the tax as the rounded fixed 8.5 percent of that subtotal, the shipping as
the flat 75.00, and the total amount as the rounded sum of the three. -/
theorem c5_engine_derived_totals (today : String) (r : ExtractionResult)
    (hs : r.po_details.subtotal = none) (ht : r.po_details.tax = none)
    (hsh : r.po_details.shipping = none) (hta : r.po_details.total_amount = none)
    (hi : r.line_items ≠ []) :
    (validate_and_clean_data today r).po_details.subtotal =
      some (round2 (sumTotalPrices r.line_items)) ∧
    (validate_and_clean_data today r).po_details.tax =
      some (round2 (round2 (sumTotalPrices r.line_items) * taxRate)) ∧
    (validate_and_clean_data today r).po_details.shipping = some 75 ∧
    (validate_and_clean_data today r).po_details.total_amount =
      some (round2 (round2 (sumTotalPrices r.line_items) +
        round2 (round2 (sumTotalPrices r.line_items) * taxRate) + 75)) := by
  simp [validate_and_clean_data, vcdDates, vcdSubtotal_subtotal, vcdTax_tax,
        hs, ht, hsh, hta, hi]

/-- A record whose source text supplied a total amount of 500.00 but no
subtotal, tax or shipping, with one extracted line item of total 100.00. -/
def c5Rec : ExtractionResult :=
  { po_details := { total_amount := some 500 }
    line_items := [{ description := some "A", quantity := some 1,
                     unit_price := some 100, total_price := some 100 }] }

/-- C5 counterexample: on c5Rec the engine derives subtotal 100, tax 8.5 and
shipping 75, yet the total amount stays 500, which differs from
round2 of their sum (183.5); so engine-derived subtotal, tax and shipping do
not by themselves force the claimed equality when the total was supplied by
the source. -/
theorem c5_counterexample :
    c5Rec.po_details.subtotal = none ∧ c5Rec.po_details.tax = none ∧
    c5Rec.po_details.shipping = none ∧
    (validate_and_clean_data "07/04/2026" c5Rec).po_details.subtotal = some 100 ∧
    (validate_and_clean_data "07/04/2026" c5Rec).po_details.tax = some (17/2) ∧
    (validate_and_clean_data "07/04/2026" c5Rec).po_details.shipping = some 75 ∧
    (validate_and_clean_data "07/04/2026" c5Rec).po_details.total_amount = some 500 ∧
    (500 : ℚ) ≠ round2 (100 + 17/2 + 75) := by
  set_option maxRecDepth 4000 in with_unfolding_all decide

/-- A record with one line item and no financial fields at all. -/
def c5OpenRec : ExtractionResult :=
  { line_items := [{ description := some "A", quantity := some 2,
                     unit_price := some 10, total_price := some 20 }] }

theorem c5_witness :
    (c5OpenRec.po_details.subtotal = none ∧ c5OpenRec.po_details.tax = none ∧
     c5OpenRec.po_details.shipping = none ∧ c5OpenRec.po_details.total_amount = none ∧
     c5OpenRec.line_items ≠ []) ∧
    (validate_and_clean_data "07/04/2026" c5OpenRec).po_details.subtotal =
      some (round2 (sumTotalPrices c5OpenRec.line_items)) :=
  ⟨by with_unfolding_all decide,
   (c5_engine_derived_totals "07/04/2026" c5OpenRec rfl rfl rfl rfl
     (by with_unfolding_all decide)).1⟩

/-! ## Claim C7 -/

/-- C7: a data row of a classified table is retained if and only if the row
is not entirely empty and the item built from it carries a description or an
item code together with a quantity; a missing total price is derived as
quantity times unit price when both are present; and the concrete table with
header Item, Qty, Unit Price and the row Widget A, 3, 10.00 yields exactly
one item with quantity 3, unit price 10 and derived total 30. -/
theorem c7_line_item_retention :
    (∀ (cols : ColIdx) (n : Nat) (row : List String) (li : LineItem),
        processRow cols n row = .ok (some li) ↔
          (rowAllEmpty row = false ∧ buildItem cols n row = .ok li ∧
           keepItem li = true)) ∧
    (∀ (cols : ColIdx) (n : Nat) (row : List String) (li : LineItem) (q p : ℚ),
        buildItem cols n row = .ok li → numField cols.total n row = .ok none →
        li.quantity = some q → li.unit_price = some p →
        li.total_price = some (q * p)) ∧
    extract_line_items [["Item", "Qty", "Unit Price"], ["Widget A", "3", "10.00"]] =
      .ok [{ description := some "Widget A", item_code := none, quantity := some 3,
             unit_price := some 10, total_price := some 30 }] := by
  refine ⟨?_, ?_, by with_unfolding_all rfl⟩
  · intro cols n row li
    constructor
    · intro h
      unfold processRow at h
      by_cases he : rowAllEmpty row = true
      · rw [if_pos he] at h
        simp at h
      · rw [if_neg he] at h
        rcases hb : buildItem cols n row with e | x <;> rw [hb] at h
        · simp at h
        · by_cases hk : keepItem x = true
          · simp only [hk, if_true] at h
            obtain rfl : x = li := by simpa using h
            exact ⟨by simpa using he, rfl, hk⟩
          · simp [hk] at h
    · rintro ⟨he, hb, hk⟩
      unfold processRow
      rw [if_neg (by simp [he]), hb]
      simp [hk]
  · intro cols n row li q p hb hto hq hp
    unfold buildItem at hb
    rcases hqty : numField cols.qty n row with e | qv
    · rw [hqty] at hb; cases hb
    · rcases hpr : numField cols.price n row with e | pv
      · rw [hqty, hpr] at hb; cases hb
      · rw [hqty, hpr, hto] at hb
        obtain rfl := (Except.ok.inj hb).symm
        simp only at hq hp
        subst hq; subst hp
        rfl

/-- The line item built from the Widget A row. -/
def widgetItem : LineItem :=
  { description := some "Widget A", item_code := none, quantity := some 3,
    unit_price := some 10, total_price := some 30 }

theorem c7_witness :
    (rowAllEmpty ["Widget A", "3", "10.00"] = false ∧
     buildItem (lineItemCols ["item", "qty", "unit price"]) 3
       ["Widget A", "3", "10.00"] = .ok widgetItem ∧
     keepItem widgetItem = true) ∧
    processRow (lineItemCols ["item", "qty", "unit price"]) 3
      ["Widget A", "3", "10.00"] = .ok (some widgetItem) :=
  ⟨by with_unfolding_all decide,
   (c7_line_item_retention.1 (lineItemCols ["item", "qty", "unit price"]) 3
     ["Widget A", "3", "10.00"] widgetItem).mpr (by with_unfolding_all decide)⟩

/-! ## Claim C9 -/

/-- Items a table contributes when its extraction succeeds. -/
def lineItemsOfOk (t : Table) : List LineItem :=
  (extract_line_items t).toOption.getD []

/-- Concatenation, in document order, of the items of the tables the
simplified classifier accepts. -/
def concatItems : List Table → List LineItem
  | [] => []
  | t :: ts =>
    (if is_line_items_table t then lineItemsOfOk t else []) ++ concatItems ts

/-- C9 (amended): in the simplified variant every table that passes
is_line_items_table (a nonempty table with at least three columns whose
header row contains an item, a quantity and a price keyword) contributes its
retained rows, and line_items is the concatenation of those contributions in
the order the tables appear; a qualifying header alone does not suffice when
the table has fewer than three columns. -/
theorem c9_multi_table_concatenation :
    (∀ (tables : List Table) (r res : ExtractionResult),
        extract_from_tables tables r = .ok res →
        res.line_items = r.line_items ++ concatItems tables) ∧
    (∀ t : Table, is_line_items_table t = true ↔
        (t ≠ [] ∧ 3 ≤ ncols t ∧
         anyHeaderHas (dfHeaders t) itemKeywords = true ∧
         anyHeaderHas (dfHeaders t) qtyKeywords = true ∧
         anyHeaderHas (dfHeaders t) priceKeywords = true)) := by
  constructor
  · intro tables
    induction tables with
    | nil =>
      intro r res h
      simp only [extract_from_tables] at h
      obtain rfl := Except.ok.inj h
      simp [concatItems]
    | cons t ts ih =>
      intro r res h
      unfold extract_from_tables at h
      by_cases hc : is_line_items_table t = true
      · rw [if_pos hc] at h
        rcases he : extract_line_items t with e | items <;> rw [he] at h
        · cases h
        · have hrec := ih _ res h
          simp only at hrec
          rw [hrec]
          simp [concatItems, hc, lineItemsOfOk, he, Except.toOption,
                List.append_assoc]
      · rw [if_neg hc] at h
        have hrec := ih r res h
        rw [hrec]
        simp [concatItems, hc]
  · intro t
    unfold is_line_items_table dfEmpty
    by_cases h0 : t = []
    · simp [h0, ncols]
    · by_cases h2 : ncols t < 3
      · have h3 : ¬ 3 ≤ ncols t := by omega
        simp [h0, h2, h3]
      · have h3 : 3 ≤ ncols t := by omega
        have h4 : ncols t ≠ 0 := by omega
        have h5 : t.length ≠ 0 := by simpa [List.length_eq_zero] using h0
        simp [h0, h2, h3, h4, h5]

/-- First counterexample table: three columns, qualifying header. -/
def c9T1 : Table := [["item", "qty", "price"], ["a", "1", "2"]]

/-- Second counterexample table: only two columns, but its header row still
contains an item keyword, a quantity keyword and a price keyword, and its
data row parses to a retainable line item. -/
def c9T2 : Table := [["item qty", "price"], ["b3", "9.99"]]

/-- The one line item the pipeline actually extracts from c9T1 and c9T2. -/
def c9OnlyItem : LineItem :=
  { description := some "a", item_code := none, quantity := some 1,
    unit_price := some 2, total_price := some 2 }

/-- C9 counterexample: the header row of c9T2 contains a keyword of each of
the three groups and its data row would be retained, yet extracting from the
pair of tables yields only the item of c9T1: a table with fewer than three
columns contributes nothing, refuting the claim that keyword-bearing headers
alone make a table contribute. -/
theorem c9_counterexample :
    anyHeaderHas ((c9T2.headD []).map lowerStr) itemKeywords = true ∧
    anyHeaderHas ((c9T2.headD []).map lowerStr) qtyKeywords = true ∧
    anyHeaderHas ((c9T2.headD []).map lowerStr) priceKeywords = true ∧
    processRow (lineItemCols ((c9T2.headD []).map lowerStr)) 2 ["b3", "9.99"] =
      .ok (some { description := some "b3", item_code := none, quantity := some 3,
                  unit_price := some (999/100), total_price := some (2997/100) }) ∧
    extract_from_tables [c9T1, c9T2] emptyResult =
      .ok { line_items := [c9OnlyItem] } := by
  refine ⟨?_, ?_, ?_, ?_, ?_⟩ <;> set_option maxRecDepth 4000 in with_unfolding_all rfl

/-- The record produced from the single qualifying table. -/
def c9Res : ExtractionResult := { line_items := [c9OnlyItem] }

theorem c9_witness :
    extract_from_tables [c9T1] emptyResult = .ok c9Res ∧
    c9Res.line_items = emptyResult.line_items ++ concatItems [c9T1] :=
  ⟨by with_unfolding_all rfl,
   c9_multi_table_concatenation.1 [c9T1] emptyResult c9Res
     (by with_unfolding_all rfl)⟩

/-! ## Claims C3 and C8 -/

namespace DataExtractor

/-- Once a candidate is held, the largest-table loop never returns absent. -/
lemma largestAux_isSome (ts : List Table) (x : Table) (m : Nat) :
    largestAux ts (some x) m ≠ none := by
  induction ts generalizing x m with
  | nil => simp [largestAux]
  | cons t ts ih =>
    unfold largestAux
    split
    · exact ih t t.length
    · exact ih x m

/-- The largest-table loop returns absent exactly when it holds no candidate
and no remaining table is longer than the current maximum. -/
lemma largestAux_none_iff (ts : List Table) (b : Option Table) (m : Nat) :
    largestAux ts b m = none ↔ (b = none ∧ ∀ t ∈ ts, t.length ≤ m) := by
  induction ts generalizing b m with
  | nil => simp [largestAux]
  | cons t ts ih =>
    unfold largestAux
    split
    · rename_i hc
      constructor
      · intro h; exact absurd h (largestAux_isSome ts t t.length)
      · rintro ⟨_, hall⟩
        have := hall t (by simp)
        omega
    · rename_i hc
      rw [ih]
      have hle : t.length ≤ m := by
        by_cases ht : t = []
        · simp [ht]
        · push_neg at hc
          exact hc ht
      constructor
      · rintro ⟨hb, hall⟩
        exact ⟨hb, by
          intro u hu
          rcases List.mem_cons.mp hu with rfl | hu
          · exact hle
          · exact hall u hu⟩
      · rintro ⟨hb, hall⟩
        exact ⟨hb, fun u hu => hall u (List.mem_cons_of_mem t hu)⟩

/-- Whatever table the largest-table loop returns either was the incoming
candidate with nothing in the list beating the incoming maximum, or is a
member of the list at least as long as the maximum and every list member. -/
lemma largestAux_spec (ts : List Table) (b : Option Table) (m : Nat) (t : Table)
    (h : largestAux ts b m = some t) :
    (b = some t ∧ ∀ u ∈ ts, u.length ≤ m) ∨
    (t ∈ ts ∧ m ≤ t.length ∧ ∀ u ∈ ts, u.length ≤ t.length) := by
  induction ts generalizing b m with
  | nil =>
    simp [largestAux] at h
    exact Or.inl ⟨by simp [h], by simp⟩
  | cons u0 ts ih =>
    unfold largestAux at h
    by_cases hc : u0 ≠ [] ∧ m < u0.length
    · rw [if_pos hc] at h
      rcases ih _ _ h with ⟨hb, hall⟩ | ⟨hmem, hge, hall⟩
      · obtain rfl := Option.some.inj hb
        refine Or.inr ⟨by simp, by omega, ?_⟩
        intro u hu
        rcases List.mem_cons.mp hu with rfl | hu
        · exact le_refl _
        · exact hall u hu
      · refine Or.inr ⟨List.mem_cons_of_mem _ hmem, by omega, ?_⟩
        intro u hu
        rcases List.mem_cons.mp hu with rfl | hu
        · exact hge
        · exact hall u hu
    · rw [if_neg hc] at h
      have hle : u0.length ≤ m := by
        by_cases h0 : u0 = []
        · simp [h0]
        · push_neg at hc
          exact hc h0
      rcases ih _ _ h with ⟨hb, hall⟩ | ⟨hmem, hge, hall⟩
      · refine Or.inl ⟨hb, ?_⟩
        intro u hu
        rcases List.mem_cons.mp hu with rfl | hu
        · exact hle
        · exact hall u hu
      · refine Or.inr ⟨List.mem_cons_of_mem _ hmem, hge, ?_⟩
        intro u hu
        rcases List.mem_cons.mp hu with rfl | hu
        · omega
        · exact hall u hu

/-- When no table passes the keyword test, the first loop finds nothing. -/
lemma findByHeaders_none (tables : List Table)
    (hno : ∀ t ∈ tables, ¬(t ≠ [] ∧ 3 ≤ headerMatchCount t)) :
    findByHeaders tables = none := by
  induction tables with
  | nil => rfl
  | cons t ts ih =>
    unfold findByHeaders
    rw [if_neg (hno t (by simp))]
    exact ih fun u hu => hno u (List.mem_cons_of_mem t hu)

end DataExtractor

/-- C3 (amended): when no table passes the keyword threshold, the classifier
returns absent exactly when every table in the collection is empty (in
particular also for some nonempty collections, refuting absence only on the
empty collection), and any table it does return belongs to the collection and
has at least as many rows as every other table. -/
theorem c3_classifier_fallback (tables : List Table)
    (hno : ∀ t ∈ tables, ¬(t ≠ [] ∧ 3 ≤ DataExtractor.headerMatchCount t)) :
    (DataExtractor.find_line_items_table tables = none ↔ ∀ t ∈ tables, t = []) ∧
    (∀ t, DataExtractor.find_line_items_table tables = some t →
        t ∈ tables ∧ ∀ u ∈ tables, u.length ≤ t.length) := by
  have hfb := DataExtractor.findByHeaders_none tables hno
  constructor
  · rw [DataExtractor.find_line_items_table, hfb]
    simp only [DataExtractor.largestAux_none_iff, true_and]
    constructor
    · intro h t ht
      have := h t ht
      simpa [List.length_eq_zero] using this
    · intro h t ht
      simp [h t ht]
  · intro t h
    rw [DataExtractor.find_line_items_table, hfb] at h
    rcases DataExtractor.largestAux_spec tables none 0 t h with ⟨hb, _⟩ | ⟨hmem, _, hall⟩
    · cases hb
    · exact ⟨hmem, hall⟩

/-- C3 counterexample: the collection holding one empty table is nonempty and
meets no keyword threshold, yet the classifier returns absent, refuting the
claim that absent is returned only for the empty collection. -/
theorem c3_counterexample :
    [([] : Table)] ≠ [] ∧
    (∀ t ∈ [([] : Table)], ¬(t ≠ [] ∧ 3 ≤ DataExtractor.headerMatchCount t)) ∧
    DataExtractor.find_line_items_table [([] : Table)] = none := by
  refine ⟨by simp, ?_, by with_unfolding_all rfl⟩
  intro t ht
  simp at ht
  simp [ht]

/-- A one-table collection whose header matches no keywords. -/
def c3Tables : List Table := [[["hello"]], []]

theorem c3_witness :
    (∀ t ∈ c3Tables, ¬(t ≠ [] ∧ 3 ≤ DataExtractor.headerMatchCount t)) ∧
    ((DataExtractor.find_line_items_table c3Tables = none ↔ ∀ t ∈ c3Tables, t = []) ∧
     (∀ t, DataExtractor.find_line_items_table c3Tables = some t →
        t ∈ c3Tables ∧ ∀ u ∈ c3Tables, u.length ≤ t.length)) :=
  ⟨by with_unfolding_all decide,
   c3_classifier_fallback c3Tables (by with_unfolding_all decide)⟩

/-- C8: with a first table headed Date, Note (no keyword match) and a second
headed SKU, Description, Qty, Price (three keyword matches), the classifier
returns the second table whatever data rows either table carries, because the
header pass runs before the largest-table fallback. -/
theorem c8_table_selection_priority (rows1 rows2 : List (List String)) :
    DataExtractor.find_line_items_table
      [["Date", "Note"] :: rows1, ["SKU", "Description", "Qty", "Price"] :: rows2] =
      some (["SKU", "Description", "Qty", "Price"] :: rows2) := by
  have h1 : DataExtractor.headerMatchCount (["Date", "Note"] :: rows1) = 0 := by
    with_unfolding_all rfl
  have h2 : DataExtractor.headerMatchCount
      (["SKU", "Description", "Qty", "Price"] :: rows2) = 3 := by
    with_unfolding_all rfl
  unfold DataExtractor.find_line_items_table
  simp [DataExtractor.findByHeaders, h1, h2]

/-! ## A small regular-expression matcher

The extractors drive everything else off re.search calls.  The pattern
language below covers exactly the constructs those patterns use: character
classes, concatenation, prioritized alternation, greedy and lazy repetition,
capture groups, anchors and end-of-string.  The matcher is a backtracking
matcher in continuation-passing style, with leftmost search semantics and
left-biased alternation like the Python engine; a fuel argument bounds the
backtracking (generously beyond anything the searches in this file do). -/

inductive Re : Type where
  | eps : Re
  | cls : (Char → Bool) → Re
  | seq : Re → Re → Re
  | alt : Re → Re → Re
  | star : Bool → Re → Re
  | grp : Nat → Re → Re
  | bol : Bool → Re
  | eol : Bool → Re
  | eos : Re

/-- Captures: group number with start and end position, latest first. -/
abbrev Caps := List (Nat × Nat × Nat)

/-- The backtracking matcher.  The boolean on star selects lazy repetition;
the boolean on the anchors selects MULTILINE semantics.  The continuation
receives the position after the piece just matched. -/
def reMat (cs : List Char) : Nat → Re → Nat → Caps →
    (Nat → Caps → Option (Nat × Caps)) → Option (Nat × Caps)
  | 0, _, _, _, _ => none
  | fuel + 1, re, i, cp, k =>
    match re with
    | .eps => k i cp
    | .cls p =>
      match cs[i]? with
      | some c => if p c then k (i + 1) cp else none
      | none => none
    | .seq a b => reMat cs fuel a i cp (fun j cp2 => reMat cs fuel b j cp2 k)
    | .alt a b =>
      match reMat cs fuel a i cp k with
      | some res => some res
      | none => reMat cs fuel b i cp k
    | .star lazy r =>
      if lazy then
        match k i cp with
        | some res => some res
        | none =>
          reMat cs fuel r i cp (fun j cp2 =>
            if j = i then none else reMat cs fuel (.star true r) j cp2 k)
      else
        match reMat cs fuel r i cp (fun j cp2 =>
            if j = i then none else reMat cs fuel (.star false r) j cp2 k) with
        | some res => some res
        | none => k i cp
    | .grp n r => reMat cs fuel r i cp (fun j cp2 => k j ((n, i, j) :: cp2))
    | .bol ml =>
      if i = 0 ∨ (ml ∧ cs[i - 1]? = some '\n') then k i cp else none
    | .eol ml =>
      if i = cs.length ∨ (ml ∧ cs[i]? = some '\n') ∨
         (i + 1 = cs.length ∧ cs[i]? = some '\n') then k i cp else none
    | .eos => if i = cs.length then k i cp else none

/-- Fuel used for a search over a text of the given size. -/
def reFuel (n : Nat) : Nat := (n + 2) * (n + 2) * 200 + 4000

/-- Try the pattern anchored at consecutive start positions, leftmost first;
rem counts the positions still to try. -/
def reSearchFrom (cs : List Char) (re : Re) : Nat → Nat → Option (Nat × Nat × Caps)
  | 0, _ => none
  | rem + 1, i =>
    match reMat cs (reFuel cs.length) re i [] (fun j cp => some (j, cp)) with
    | some (j, cp) => some (i, j, cp)
    | none => reSearchFrom cs re rem (i + 1)

/-- re.search: the leftmost match, as start, end and captures. -/
def reSearch (re : Re) (s : String) : Option (Nat × Nat × Caps) :=
  reSearchFrom s.data re (s.data.length + 1) 0

/-- The substring of s between two positions. -/
def substrPos (s : String) (a b : Nat) : String :=
  String.mk ((s.data.drop a).take (b - a))

/-- match.group(n): the whole match for n = 0, else the latest capture of
group n. -/
def reGroup (re : Re) (s : String) (n : Nat) : Option String :=
  match reSearch re s with
  | none => none
  | some (a, b, cp) =>
    if n = 0 then some (substrPos s a b)
    else (cp.lookup n).map (fun x => substrPos s x.1 x.2)

/-! Pattern-building helpers. -/

/-- A class that matches nothing: the empty alternation. -/
def reFail : Re := .cls (fun _ => false)

/-- Concatenation of a pattern list. -/
def reCat : List Re → Re
  | [] => .eps
  | [r] => r
  | r :: rs => .seq r (reCat rs)

/-- Prioritized alternation of a pattern list. -/
def reAlts : List Re → Re
  | [] => reFail
  | [r] => r
  | r :: rs => .alt r (reAlts rs)

/-- One character, case-insensitively. -/
def chCI (c : Char) : Re := .cls (fun x => asciiLower x = asciiLower c)

/-- A literal string, case-insensitively. -/
def strCI (s : String) : Re := reCat (s.data.map chCI)

/-- A literal string, exactly. -/
def strEx (s : String) : Re := reCat (s.data.map (fun c => Re.cls (fun x => x = c)))

/-- A class from an explicit character list. -/
def clsIn (l : List Char) : Re := .cls (fun c => charIn c l)

/-- The optional quantifier (greedy). -/
def reOpt (r : Re) : Re := .alt r .eps

/-- The plus quantifier (greedy). -/
def rePlus (r : Re) : Re := .seq r (.star false r)

/-- The lazy plus quantifier. -/
def rePlusLazy (r : Re) : Re := .seq r (.star true r)

/-- Up to n repetitions, greedy. -/
def reRepUpTo : Re → Nat → Re
  | _, 0 => .eps
  | r, n + 1 => .alt (.seq r (reRepUpTo r n)) .eps

/-- Between m and n repetitions, greedy. -/
def reRep (r : Re) (m n : Nat) : Re :=
  reCat (List.replicate m r ++ [reRepUpTo r (n - m)])

/-- At least m repetitions, greedy. -/
def reAtLeast (r : Re) (m : Nat) : Re :=
  reCat (List.replicate m r ++ [.star false r])

/-- The class of whitespace or colon, the bridge between a label and its
value in most of the patterns. -/
def spaceColon : Re := .cls (fun c => isPySpace c ∨ c = ':')

/-- One whitespace character. -/
def reSpace : Re := .cls isPySpace

/-- One digit. -/
def reDigit : Re := .cls isDig

/-! ## simplified_data_extractor: text patterns

Each definition transcribes one re.search pattern of the source, in source
order, with the original pattern quoted in the comment. -/

/-- Pattern (?:Client|Customer|Bill To|Sold To)[\s:]+([A-Za-z0-9\s.,&]+?)(?:\n|,|\s{2,}|$)
with IGNORECASE. -/
def sClientNameRe : Re :=
  reCat [reAlts [strCI "Client", strCI "Customer", strCI "Bill To", strCI "Sold To"],
         rePlus spaceColon,
         .grp 1 (rePlusLazy (.cls (fun c => isAlnumA c ∨ isPySpace c ∨
                                            charIn c ['.', ',', '&']))),
         reAlts [strEx "\n", strEx ",", reAtLeast reSpace 2, .eol false]]

/-- Pattern (?:Phone|Tel|Telephone)[\s:]+(\+?[0-9\s\(\)\-\.]{7,20}) with
IGNORECASE. -/
def sPhoneRe : Re :=
  reCat [reAlts [strCI "Phone", strCI "Tel", strCI "Telephone"],
         rePlus spaceColon,
         .grp 1 (reCat [reOpt (strEx "+"),
                        reRep (.cls (fun c => isDig c ∨ isPySpace c ∨
                                              charIn c ['(', ')', '-', '.'])) 7 20])]

/-- Pattern [A-Za-z0-9._%+-]+@[A-Za-z0-9.-]+\.[A-Za-z]{2,} (case sensitive);
the whole match is used. -/
def sEmailRe : Re :=
  reCat [rePlus (.cls (fun c => isAlnumA c ∨ charIn c ['.', '_', '%', '+', '-'])),
         strEx "@",
         rePlus (.cls (fun c => isAlnumA c ∨ charIn c ['.', '-'])),
         strEx ".",
         reAtLeast (.cls isAsciiLetter) 2]

/-- Pattern (?:Address|Location)[\s:]+([A-Za-z0-9\s.,#\-]+(?:[A-Za-z]{2,}\s+\d{5,}))
with IGNORECASE. -/
def sAddressRe : Re :=
  reCat [reAlts [strCI "Address", strCI "Location"],
         rePlus spaceColon,
         .grp 1 (reCat [rePlus (.cls (fun c => isAlnumA c ∨ isPySpace c ∨
                                               charIn c ['.', ',', '#', '-'])),
                        reAtLeast (.cls isAsciiLetter) 2,
                        rePlus reSpace,
                        reAtLeast reDigit 5])]

/-- Pattern (?:PO|Purchase Order|Order)[\s#:]+([A-Za-z0-9\-]+) with
IGNORECASE. -/
def sPoNumberRe : Re :=
  reCat [reAlts [strCI "PO", strCI "Purchase Order", strCI "Order"],
         rePlus (.cls (fun c => isPySpace c ∨ c = '#' ∨ c = ':')),
         .grp 1 (rePlus (.cls (fun c => isAlnumA c ∨ c = '-')))]

/-- The date capture \d{1,2}[\/\-\.]\d{1,2}[\/\-\.]\d{2,4}. -/
def sDateCapture : Re :=
  reCat [reRep reDigit 1 2, clsIn ['/', '-', '.'],
         reRep reDigit 1 2, clsIn ['/', '-', '.'],
         reRep reDigit 2 4]

/-- Pattern (?:Date|Created|Order Date)[\s:]+(date) with IGNORECASE. -/
def sCreationDateRe : Re :=
  reCat [reAlts [strCI "Date", strCI "Created", strCI "Order Date"],
         rePlus spaceColon, .grp 1 sDateCapture]

/-- Pattern (?:Due Date|Delivery Date|Required by)[\s:]+(date) with
IGNORECASE. -/
def sDueDateRe : Re :=
  reCat [reAlts [strCI "Due Date", strCI "Delivery Date", strCI "Required by"],
         rePlus spaceColon, .grp 1 sDateCapture]

/-- Pattern (?:Terms|Payment Terms)[\s:]+([A-Za-z0-9\s]+) with IGNORECASE. -/
def sTermsRe : Re :=
  reCat [reAlts [strCI "Terms", strCI "Payment Terms"],
         rePlus spaceColon,
         .grp 1 (rePlus (.cls (fun c => isAlnumA c ∨ isPySpace c)))]

/-- The money tail [\s:]+[\$£€]?\s*([0-9,]+\.[0-9]{2}) shared by the four
monetary patterns. -/
def sMoneyTail : Re :=
  reCat [rePlus spaceColon, reOpt (clsIn ['$', '£', '€']), .star false reSpace,
         .grp 1 (reCat [rePlus (.cls (fun c => isDig c ∨ c = ',')),
                        strEx ".", reRep reDigit 2 2])]

/-- Pattern (?:Total|Grand Total|Amount) followed by the money tail,
IGNORECASE. -/
def sTotalRe : Re :=
  reCat [reAlts [strCI "Total", strCI "Grand Total", strCI "Amount"], sMoneyTail]

/-- Pattern (?:Subtotal|Sub-total|Net) followed by the money tail. -/
def sSubtotalRe : Re :=
  reCat [reAlts [strCI "Subtotal", strCI "Sub-total", strCI "Net"], sMoneyTail]

/-- Pattern (?:Tax|VAT|GST) followed by the money tail. -/
def sTaxRe : Re :=
  reCat [reAlts [strCI "Tax", strCI "VAT", strCI "GST"], sMoneyTail]

/-- Pattern (?:Shipping|Freight|Delivery) followed by the money tail. -/
def sShippingRe : Re :=
  reCat [reAlts [strCI "Shipping", strCI "Freight", strCI "Delivery"], sMoneyTail]

/-- Pattern (?:Comments|Notes|Instructions)[\s:]+(.+?)(?:\n\n|\Z) with
IGNORECASE and DOTALL (the dot matches every character). -/
def sCommentsRe : Re :=
  reCat [reAlts [strCI "Comments", strCI "Notes", strCI "Instructions"],
         rePlus spaceColon,
         .grp 1 (rePlusLazy (.cls (fun _ => true))),
         reAlts [strEx "\n\n", .eos]]

/-- Pattern (?:Ship To|Deliver To)[\s:]+([A-Za-z0-9\s.,&]+?)(?:\n|,|\s{2,}|$)
with IGNORECASE. -/
def sShipNameRe : Re :=
  reCat [reAlts [strCI "Ship To", strCI "Deliver To"],
         rePlus spaceColon,
         .grp 1 (rePlusLazy (.cls (fun c => isAlnumA c ∨ isPySpace c ∨
                                            charIn c ['.', ',', '&']))),
         reAlts [strEx "\n", strEx ",", reAtLeast reSpace 2, .eol false]]

/-- Pattern (?:Ship To Address|Delivery Address)[\s:]+(address body) with
IGNORECASE. -/
def sShipAddressRe : Re :=
  reCat [reAlts [strCI "Ship To Address", strCI "Delivery Address"],
         rePlus spaceColon,
         .grp 1 (reCat [rePlus (.cls (fun c => isAlnumA c ∨ isPySpace c ∨
                                               charIn c ['.', ',', '#', '-'])),
                        reAtLeast (.cls isAsciiLetter) 2,
                        rePlus reSpace,
                        reAtLeast reDigit 5])]

/-- Pattern (?:Ship To Phone|Delivery Phone)[\s:]+(\+?[0-9\s\(\)\-\.]{7,20})
with IGNORECASE. -/
def sShipPhoneRe : Re :=
  reCat [reAlts [strCI "Ship To Phone", strCI "Delivery Phone"],
         rePlus spaceColon,
         .grp 1 (reCat [reOpt (strEx "+"),
                        reRep (.cls (fun c => isDig c ∨ isPySpace c ∨
                                              charIn c ['(', ')', '-', '.'])) 7 20])]

/-- Remove the thousands separators of a captured monetary string. -/
def stripCommas (s : String) : String :=
  String.mk (s.data.filter (fun c => c ≠ ','))

/-- A captured monetary string, stripped and with commas removed, as a
rational.  The source stores the string and converts with float() later; the
capture shape guarantees that conversion succeeds. -/
def moneyOf (g : Option String) : Option ℚ :=
  g.bind (fun v => pyFloat? (stripCommas (pyStrip v)))

/-! ## simplified_data_extractor: the text phase

One small function per conditional field write; each composite function
applies its writes in source order. -/

/-- Client name write. -/
def exClientName (text : String) (r : ExtractionResult) : ExtractionResult :=
  match (reGroup sClientNameRe text 1).map pyStrip with
  | some v => { r with client_info := { r.client_info with name := some v } }
  | none => r

/-- Client phone write. -/
def exClientPhone (text : String) (r : ExtractionResult) : ExtractionResult :=
  match (reGroup sPhoneRe text 1).map pyStrip with
  | some v => { r with client_info := { r.client_info with phone := some v } }
  | none => r

/-- Client email write (the whole match, unstripped). -/
def exClientEmail (text : String) (r : ExtractionResult) : ExtractionResult :=
  match reGroup sEmailRe text 0 with
  | some v => { r with client_info := { r.client_info with email := some v } }
  | none => r

/-- Client address write. -/
def exClientAddress (text : String) (r : ExtractionResult) : ExtractionResult :=
  match (reGroup sAddressRe text 1).map pyStrip with
  | some v => { r with client_info := { r.client_info with address := some v } }
  | none => r

/-- simplified_data_extractor.extract_client_info. -/
def extract_client_info (text : String) (r : ExtractionResult) : ExtractionResult :=
  exClientAddress text (exClientEmail text (exClientPhone text (exClientName text r)))

/-- PO number write. -/
def exPoNumber (text : String) (r : ExtractionResult) : ExtractionResult :=
  match (reGroup sPoNumberRe text 1).map pyStrip with
  | some v => { r with po_details := { r.po_details with po_number := some v } }
  | none => r

/-- Creation date write. -/
def exCreationDate (text : String) (r : ExtractionResult) : ExtractionResult :=
  match (reGroup sCreationDateRe text 1).map pyStrip with
  | some v => { r with po_details := { r.po_details with creation_date := some v } }
  | none => r

/-- Due date write. -/
def exDueDate (text : String) (r : ExtractionResult) : ExtractionResult :=
  match (reGroup sDueDateRe text 1).map pyStrip with
  | some v => { r with po_details := { r.po_details with due_date := some v } }
  | none => r

/-- Payment terms write. -/
def exTerms (text : String) (r : ExtractionResult) : ExtractionResult :=
  match (reGroup sTermsRe text 1).map pyStrip with
  | some v => { r with po_details := { r.po_details with payment_terms := some v } }
  | none => r

/-- Total amount write. -/
def exTotalAmount (text : String) (r : ExtractionResult) : ExtractionResult :=
  match moneyOf (reGroup sTotalRe text 1) with
  | some v => { r with po_details := { r.po_details with total_amount := some v } }
  | none => r

/-- Subtotal write. -/
def exSubtotal (text : String) (r : ExtractionResult) : ExtractionResult :=
  match moneyOf (reGroup sSubtotalRe text 1) with
  | some v => { r with po_details := { r.po_details with subtotal := some v } }
  | none => r

/-- Tax write. -/
def exTax (text : String) (r : ExtractionResult) : ExtractionResult :=
  match moneyOf (reGroup sTaxRe text 1) with
  | some v => { r with po_details := { r.po_details with tax := some v } }
  | none => r

/-- Shipping write. -/
def exShipping (text : String) (r : ExtractionResult) : ExtractionResult :=
  match moneyOf (reGroup sShippingRe text 1) with
  | some v => { r with po_details := { r.po_details with shipping := some v } }
  | none => r

/-- Comments write. -/
def exComments (text : String) (r : ExtractionResult) : ExtractionResult :=
  match (reGroup sCommentsRe text 1).map pyStrip with
  | some v => { r with po_details := { r.po_details with comments := some v } }
  | none => r

/-- simplified_data_extractor.extract_po_details. -/
def extract_po_details (text : String) (r : ExtractionResult) : ExtractionResult :=
  exComments text (exShipping text (exTax text (exSubtotal text
    (exTotalAmount text (exTerms text (exDueDate text
      (exCreationDate text (exPoNumber text r))))))))

/-- Ship-to name write. -/
def exShipName (text : String) (r : ExtractionResult) : ExtractionResult :=
  match (reGroup sShipNameRe text 1).map pyStrip with
  | some v => { r with ship_to := { r.ship_to with name := some v } }
  | none => r

/-- Ship-to address write. -/
def exShipAddress (text : String) (r : ExtractionResult) : ExtractionResult :=
  match (reGroup sShipAddressRe text 1).map pyStrip with
  | some v => { r with ship_to := { r.ship_to with address := some v } }
  | none => r

/-- Ship-to phone write. -/
def exShipPhone (text : String) (r : ExtractionResult) : ExtractionResult :=
  match (reGroup sShipPhoneRe text 1).map pyStrip with
  | some v => { r with ship_to := { r.ship_to with phone := some v } }
  | none => r

/-- simplified_data_extractor.extract_shipping_info. -/
def extract_shipping_info (text : String) (r : ExtractionResult) : ExtractionResult :=
  exShipPhone text (exShipAddress text (exShipName text r))

/-- simplified_data_extractor.extract_from_text. -/
def extract_from_text (text : String) (r : ExtractionResult) : ExtractionResult :=
  extract_shipping_info text (extract_po_details text (extract_client_info text r))

/-- The assembly phase of simplified_data_extractor.extract_data: the fresh
result, the text pass, then the table pass when tables are present. -/
def assemble (doc : ParsedDocument) : Except String ExtractionResult :=
  let r1 := extract_from_text doc.text emptyResult
  if doc.tables ≠ [] then extract_from_tables doc.tables r1 else .ok r1

/-- simplified_data_extractor.extract_data: assembly followed by
validate_and_clean_data. -/
def extract_data (today : String) (doc : ParsedDocument) :
    Except String ExtractionResult :=
  match assemble doc with
  | .error e => .error e
  | .ok a => .ok (validate_and_clean_data today a)

/-! ## The text phase never touches the line items -/

@[simp] lemma exClientName_items (t : String) (r : ExtractionResult) :
    (exClientName t r).line_items = r.line_items := by
  unfold exClientName; split <;> rfl

@[simp] lemma exClientPhone_items (t : String) (r : ExtractionResult) :
    (exClientPhone t r).line_items = r.line_items := by
  unfold exClientPhone; split <;> rfl

@[simp] lemma exClientEmail_items (t : String) (r : ExtractionResult) :
    (exClientEmail t r).line_items = r.line_items := by
  unfold exClientEmail; split <;> rfl

@[simp] lemma exClientAddress_items (t : String) (r : ExtractionResult) :
    (exClientAddress t r).line_items = r.line_items := by
  unfold exClientAddress; split <;> rfl

@[simp] lemma exPoNumber_items (t : String) (r : ExtractionResult) :
    (exPoNumber t r).line_items = r.line_items := by
  unfold exPoNumber; split <;> rfl

@[simp] lemma exCreationDate_items (t : String) (r : ExtractionResult) :
    (exCreationDate t r).line_items = r.line_items := by
  unfold exCreationDate; split <;> rfl

@[simp] lemma exDueDate_items (t : String) (r : ExtractionResult) :
    (exDueDate t r).line_items = r.line_items := by
  unfold exDueDate; split <;> rfl

@[simp] lemma exTerms_items (t : String) (r : ExtractionResult) :
    (exTerms t r).line_items = r.line_items := by
  unfold exTerms; split <;> rfl

@[simp] lemma exTotalAmount_items (t : String) (r : ExtractionResult) :
    (exTotalAmount t r).line_items = r.line_items := by
  unfold exTotalAmount; split <;> rfl

@[simp] lemma exSubtotal_items (t : String) (r : ExtractionResult) :
    (exSubtotal t r).line_items = r.line_items := by
  unfold exSubtotal; split <;> rfl

@[simp] lemma exTax_items (t : String) (r : ExtractionResult) :
    (exTax t r).line_items = r.line_items := by
  unfold exTax; split <;> rfl

@[simp] lemma exShipping_items (t : String) (r : ExtractionResult) :
    (exShipping t r).line_items = r.line_items := by
  unfold exShipping; split <;> rfl

@[simp] lemma exComments_items (t : String) (r : ExtractionResult) :
    (exComments t r).line_items = r.line_items := by
  unfold exComments; split <;> rfl

@[simp] lemma exShipName_items (t : String) (r : ExtractionResult) :
    (exShipName t r).line_items = r.line_items := by
  unfold exShipName; split <;> rfl

@[simp] lemma exShipAddress_items (t : String) (r : ExtractionResult) :
    (exShipAddress t r).line_items = r.line_items := by
  unfold exShipAddress; split <;> rfl

@[simp] lemma exShipPhone_items (t : String) (r : ExtractionResult) :
    (exShipPhone t r).line_items = r.line_items := by
  unfold exShipPhone; split <;> rfl

@[simp] lemma extract_from_text_items (t : String) (r : ExtractionResult) :
    (extract_from_text t r).line_items = r.line_items := by
  simp [extract_from_text, extract_shipping_info, extract_po_details,
        extract_client_info]

/-- The line items after completion: the placeholder for an empty list,
otherwise unchanged. -/
lemma validate_line_items (today : String) (r : ExtractionResult) :
    (validate_and_clean_data today r).line_items =
      if r.line_items = [] then [defaultLineItem] else r.line_items := by
  unfold validate_and_clean_data
  rw [vcdItems_line_items]
  simp [vcdDates]

/-! ## Claim C6 -/

/-- C6: when the assembled record has no line items, completion appends
exactly the fixed placeholder item, so completed line items are never empty;
in particular a document with text only and no tables ends with exactly the
placeholder item DEFAULT001, Standard Product, quantity 1, unit price 100,
total price 100. -/
theorem c6_placeholder_injection :
    (∀ (today : String) (r : ExtractionResult),
        (validate_and_clean_data today r).line_items ≠ [] ∧
        (r.line_items = [] →
          (validate_and_clean_data today r).line_items = [defaultLineItem])) ∧
    (∀ today text : String, ∃ r2,
        extract_data today { text := text, tables := [] } = .ok r2 ∧
        r2.line_items =
          [{ description := some "Standard Product", item_code := some "DEFAULT001",
             quantity := some 1, unit_price := some 100, total_price := some 100 }]) := by
  constructor
  · intro today r
    rw [validate_line_items]
    constructor
    · by_cases h : r.line_items = [] <;> simp [h]
    · intro h; simp [h]
  · intro today text
    refine ⟨validate_and_clean_data today (extract_from_text text emptyResult), ?_, ?_⟩
    · unfold extract_data assemble
      simp
    · rw [validate_line_items]
      simp [defaultLineItem, emptyResult]

theorem c6_witness :
    emptyResult.line_items = [] ∧
    (validate_and_clean_data "07/04/2026" emptyResult).line_items = [defaultLineItem] :=
  ⟨rfl, (c6_placeholder_injection.1 "07/04/2026" emptyResult).2 rfl⟩

/-! ## Claim C1 -/

/-- C1 (amended): whenever assembly succeeds (no numeric table cell strips to
an unparseable numeral), extraction followed by completion returns normally;
shipping and total amount are then always populated, subtotal and tax are
populated whenever assembly yielded at least one line item, and when none of
the four financial fields came from the source the total is the rounded sum
of the completed subtotal, tax and shipping (absent read as zero). -/
theorem c1_completion_invariants (doc : ParsedDocument) (today : String)
    (a : ExtractionResult) (ha : assemble doc = .ok a) :
    extract_data today doc = .ok (validate_and_clean_data today a) ∧
    (validate_and_clean_data today a).po_details.shipping.isSome ∧
    (validate_and_clean_data today a).po_details.total_amount.isSome ∧
    (a.line_items ≠ [] →
      (validate_and_clean_data today a).po_details.subtotal.isSome ∧
      (validate_and_clean_data today a).po_details.tax.isSome) ∧
    ((a.po_details.subtotal = none ∧ a.po_details.tax = none ∧
      a.po_details.shipping = none ∧ a.po_details.total_amount = none) →
      (validate_and_clean_data today a).po_details.total_amount =
        some (round2
          ((validate_and_clean_data today a).po_details.subtotal.getD 0 +
           (validate_and_clean_data today a).po_details.tax.getD 0 +
           (validate_and_clean_data today a).po_details.shipping.getD 0))) := by
  refine ⟨?_, ?_, ?_, ?_, ?_⟩
  · unfold extract_data
    rw [ha]
  · simp [validate_and_clean_data, vcdDates]
  · simp [validate_and_clean_data, vcdDates]
  · intro hi
    constructor
    · simp only [validate_and_clean_data, vcdDates, vcdItems_po_details]
      simp [vcdSubtotal_subtotal, hi]
      by_cases hs : a.po_details.subtotal = none <;>
        simp [hs, Option.isSome_iff_ne_none]
    · simp only [validate_and_clean_data, vcdDates, vcdItems_po_details]
      simp [vcdTax_tax, vcdSubtotal_subtotal, hi]
      by_cases htx : a.po_details.tax = none <;>
        by_cases hs : a.po_details.subtotal = none <;>
        simp [htx, hs, Option.isSome_iff_ne_none]
  · rintro ⟨h1, h2, h3, h4⟩
    simp [validate_and_clean_data, vcdDates, vcdSubtotal_subtotal, vcdTax_tax,
          h1, h2, h3, h4]

/-- The document whose only table is classified as line items and whose
quantity cell strips to a bare dot, on which float raises ValueError. -/
def c1CrashDoc : ParsedDocument :=
  { text := "", tables := [[["Item", "Qty", "Price"], ["A", ".", "5"]]] }

/-- C1 counterexample: extraction followed by completion does not return a
record at all on c1CrashDoc; the pipeline raises converting the stripped
quantity cell to a float, refuting that the composition never raises. -/
theorem c1_counterexample :
    extract_data "01/01/2026" c1CrashDoc =
      .error "could not convert string to float" := by
  set_option maxRecDepth 8000 in with_unfolding_all rfl

theorem c1_witness :
    assemble { text := "", tables := [] } = .ok emptyResult ∧
    (validate_and_clean_data "01/01/2026" emptyResult).po_details.shipping.isSome :=
  ⟨by set_option maxRecDepth 8000 in with_unfolding_all rfl,
   (c1_completion_invariants { text := "", tables := [] } "01/01/2026" emptyResult
     (by set_option maxRecDepth 8000 in with_unfolding_all rfl)).2.1⟩

/-- C2 counterexample: the empty document yields neither a PO number nor a
client name, and after Completion and Defaulting its PO number is still
absent, refuting that the completed record always has a populated PO
number. -/
theorem c2_counterexample :
    extract_data "01/01/2026" { text := "", tables := [] } =
      .ok (validate_and_clean_data "01/01/2026" emptyResult) ∧
    (extract_from_text "" emptyResult).client_info.name = none ∧
    (validate_and_clean_data "01/01/2026" emptyResult).po_details.po_number = none := by
  refine ⟨?_, ?_, ?_⟩ <;> set_option maxRecDepth 8000 in with_unfolding_all rfl

/-! ## DataExtractor (src/data_extractor.py): text patterns

The class-based extractor tries ordered pattern lists per field; the helper
below returns the chosen group of the first pattern that matches, which also
realises the lastindex dispatch (each pattern is paired with the group its
call site reads: 1 when the pattern has a capture group, 0 otherwise). -/

/-- Group text of the first matching pattern of an ordered rule list. -/
def firstGroup : List (Re × Nat) → String → Option String
  | [], _ => none
  | (re, n) :: rest, t =>
    match reGroup re t n with
    | some g => some g
    | none => firstGroup rest t

/-- Collapse every whitespace run to a single space: re.sub of one or more
whitespace characters by a space. -/
def collapseWs (s : String) : String :=
  String.mk (collapseAux s.data false)
where
  collapseAux : List Char → Bool → List Char
    | [], _ => []
    | c :: cs, prevSpace =>
      if isPySpace c then
        if prevSpace then collapseAux cs true else ' ' :: collapseAux cs true
      else c :: collapseAux cs false

/-- Remove dollar signs. -/
def stripDollar (s : String) : String :=
  String.mk (s.data.filter (fun c => c ≠ '$'))

/-- A captured amount of the class-based extractor: stripped, dollar sign and
commas removed, parsed as a float; None exactly when float would raise (the
call sites catch ValueError and leave the field unset). -/
def moneyDE (g : Option String) : Option ℚ :=
  g.bind (fun v => pyFloat? (stripCommas (stripDollar (pyStrip v))))

namespace DataExtractor

/-- The optional colon bridge (?:\s*:)?\s* used by most labelled patterns. -/
def labelBridge : Re :=
  reCat [reOpt (reCat [.star false reSpace, strEx ":"]), .star false reSpace]

/-- The name/company character class [A-Za-z0-9\s&.,]. -/
def nameCls : Re := .cls (fun c => isAlnumA c ∨ isPySpace c ∨ charIn c ['&', '.', ','])

/-- The address character class [A-Za-z0-9\s,.#-]. -/
def addrCls : Re := .cls (fun c => isAlnumA c ∨ isPySpace c ∨ charIn c [',', '.', '#', '-'])

/-- Pattern (?:Client|Customer|Bill To|Sold To|Company)(?:\s*Name)?(?:\s*:)?\s*([A-Za-z0-9\s&.,]+)(?:\n|$)
with IGNORECASE and MULTILINE. -/
def deName1 : Re :=
  reCat [reAlts [strCI "Client", strCI "Customer", strCI "Bill To",
                 strCI "Sold To", strCI "Company"],
         reOpt (reCat [.star false reSpace, strCI "Name"]),
         labelBridge,
         .grp 1 (rePlus nameCls),
         reAlts [strEx "\n", .eol true]]

/-- Pattern (?:TO|BILL TO|SOLD TO):\s*([A-Za-z0-9\s&.,]+)(?:\n|$) with
IGNORECASE and MULTILINE. -/
def deName2 : Re :=
  reCat [reAlts [strCI "TO", strCI "BILL TO", strCI "SOLD TO"], strEx ":",
         .star false reSpace,
         .grp 1 (rePlus nameCls),
         reAlts [strEx "\n", .eol true]]

/-- Pattern ^([A-Za-z0-9\s&.,]+)(?:\n)(?:\d{1,3}[^@]*?)(?:\n|$) with
IGNORECASE and MULTILINE: a first line followed by an address-like line. -/
def deName3 : Re :=
  reCat [.bol true,
         .grp 1 (rePlus nameCls),
         strEx "\n",
         reRep reDigit 1 3,
         .star true (.cls (fun c => c ≠ '@')),
         reAlts [strEx "\n", .eol true]]

/-- The document-type heading test (invoice|purchase order|p\.?o\.?|quotation|estimate)
with IGNORECASE used by the first-lines name fallback. -/
def docTypeRe : Re :=
  reAlts [strCI "invoice", strCI "purchase order",
          reCat [chCI 'p', reOpt (strEx "."), chCI 'o', reOpt (strEx ".")],
          strCI "quotation", strCI "estimate"]

/-- Phone pattern 1 (?:Phone|Tel|Telephone)(?:\s*:)?\s*((?:\+?\d{1,3}[-.\s]?)?\(?\d{3}\)?[-.\s]?\d{3}[-.\s]?\d{4})
with IGNORECASE. -/
def dePhoneCore : Re :=
  reCat [reOpt (reCat [reOpt (strEx "+"), reRep reDigit 1 3,
                       reOpt (.cls (fun c => charIn c ['-', '.'] ∨ isPySpace c))]),
         reOpt (strEx "("), reRep reDigit 3 3, reOpt (strEx ")"),
         reOpt (.cls (fun c => charIn c ['-', '.'] ∨ isPySpace c)),
         reRep reDigit 3 3,
         reOpt (.cls (fun c => charIn c ['-', '.'] ∨ isPySpace c)),
         reRep reDigit 4 4]

/-- Phone pattern 1: labelled, capture group 1. -/
def dePhone1 : Re :=
  reCat [reAlts [strCI "Phone", strCI "Tel", strCI "Telephone"], labelBridge,
         .grp 1 dePhoneCore]

/-- Phone pattern 2: the bare number, no group; the call site reads the whole
match. -/
def dePhone2 : Re := dePhoneCore

/-- Address pattern 1 (?:Address|Location)(?:\s*:)?\s*([A-Za-z0-9\s,.#-]+(?:\n[A-Za-z0-9\s,.#-]+){1,3})
with IGNORECASE and MULTILINE. -/
def deAddr1 : Re :=
  reCat [reAlts [strCI "Address", strCI "Location"], labelBridge,
         .grp 1 (reCat [rePlus addrCls,
                        reRep (reCat [strEx "\n", rePlus addrCls]) 1 3])]

/-- Address pattern 2 (?:BILL TO|SOLD TO):\s*(?:[A-Za-z0-9\s&.,]+)\n([A-Za-z0-9\s,.#-]+(?:\n[A-Za-z0-9\s,.#-]+){1,3}). -/
def deAddr2 : Re :=
  reCat [reAlts [strCI "BILL TO", strCI "SOLD TO"], strEx ":",
         .star false reSpace, rePlus nameCls, strEx "\n",
         .grp 1 (reCat [rePlus addrCls,
                        reRep (reCat [strEx "\n", rePlus addrCls]) 1 3])]

/-- Address pattern 3 ^\S+[^\n]+\n(\d+[^@\n]+(?:\n[A-Za-z0-9\s,.#-]+){0,2})
with MULTILINE: an address block after a company-name line. -/
def deAddr3 : Re :=
  reCat [.bol true, rePlus (.cls (fun c => ¬isPySpace c)),
         rePlus (.cls (fun c => c ≠ '\n')), strEx "\n",
         .grp 1 (reCat [rePlus reDigit,
                        rePlus (.cls (fun c => c ≠ '@' ∧ c ≠ '\n')),
                        reRep (reCat [strEx "\n", rePlus addrCls]) 0 2])]

/-- Ship-to pattern 1 (?:SHIP TO|Deliver To|Shipping Address)(?:\s*:)?\s*([A-Za-z0-9\s&.,]+)(?:\n)([A-Za-z0-9\s,.#-]+(?:\n[A-Za-z0-9\s,.#-]+){0,3})
with IGNORECASE and MULTILINE: name and address groups. -/
def deShip1 : Re :=
  reCat [reAlts [strCI "SHIP TO", strCI "Deliver To", strCI "Shipping Address"],
         labelBridge,
         .grp 1 (rePlus nameCls), strEx "\n",
         .grp 2 (reCat [rePlus addrCls,
                        reRep (reCat [strEx "\n", rePlus addrCls]) 0 3])]

/-- Ship-to pattern 2 (?:SHIP TO|Deliver To|Shipping Address)(?:\s*:)?\s*([A-Za-z0-9\s&.,\n#-]+): one
group holding name and address lines. -/
def deShip2 : Re :=
  reCat [reAlts [strCI "SHIP TO", strCI "Deliver To", strCI "Shipping Address"],
         labelBridge,
         .grp 1 (rePlus (.cls (fun c => isAlnumA c ∨ isPySpace c ∨
                                        charIn c ['&', '.', ',', '\n', '#', '-'])))]

/-- The direct PO number pattern PO-\d+ (case sensitive); whole match. -/
def dePoDirect : Re := reCat [strEx "PO-", rePlus reDigit]

/-- The optional number suffix (?:\s*Number|\s*#|\s*No\.?)? of the labelled
PO patterns. -/
def deNoSuffix : Re :=
  reOpt (reAlts [reCat [.star false reSpace, strCI "Number"],
                 reCat [.star false reSpace, strEx "#"],
                 reCat [.star false reSpace, strCI "No", reOpt (strEx ".")]])

/-- PO pattern 1 (?:P\.?O\.?|Purchase Order)(?:\s*Number|\s*#|\s*No\.?)?\s*:?\s*([A-Za-z0-9-]+)
with IGNORECASE. -/
def dePo1 : Re :=
  reCat [reAlts [reCat [chCI 'P', reOpt (strEx "."), chCI 'O', reOpt (strEx ".")],
                 strCI "Purchase Order"],
         deNoSuffix, .star false reSpace, reOpt (strEx ":"), .star false reSpace,
         .grp 1 (rePlus (.cls (fun c => isAlnumA c ∨ c = '-')))]

/-- PO pattern 2 (?:Order|Reference)(?:\s*Number|\s*#|\s*No\.?)?\s*:?\s*([A-Za-z0-9-]+). -/
def dePo2 : Re :=
  reCat [reAlts [strCI "Order", strCI "Reference"],
         deNoSuffix, .star false reSpace, reOpt (strEx ":"), .star false reSpace,
         .grp 1 (rePlus (.cls (fun c => isAlnumA c ∨ c = '-')))]

/-- The numeric date capture: one or two digits, a dash or slash, one or two
digits, a dash or slash, two to four digits. -/
def deDateNum : Re :=
  reCat [reRep reDigit 1 2, clsIn ['-', '/'],
         reRep reDigit 1 2, clsIn ['-', '/'],
         reRep reDigit 2 4]

/-- The worded date capture \d{1,2}\s+[A-Za-z]{3,}\s+\d{2,4}. -/
def deDateWord : Re :=
  reCat [reRep reDigit 1 2, rePlus reSpace,
         reAtLeast (.cls isAsciiLetter) 3, rePlus reSpace,
         reRep reDigit 2 4]

/-- The creation-date labels (?:Date|Order Date|PO Date|Created|Creation Date). -/
def deCreationLabel : Re :=
  reAlts [strCI "Date", strCI "Order Date", strCI "PO Date",
          strCI "Created", strCI "Creation Date"]

/-- The due-date labels (?:Due Date|Delivery Date|Required Date|Need By). -/
def deDueLabel : Re :=
  reAlts [strCI "Due Date", strCI "Delivery Date", strCI "Required Date",
          strCI "Need By"]

/-- Payment-terms pattern 1 (?:Payment Terms|Terms)(?:\s*:)?\s*(Net\s+\d+). -/
def deTerms1 : Re :=
  reCat [reAlts [strCI "Payment Terms", strCI "Terms"], labelBridge,
         .grp 1 (reCat [strCI "Net", rePlus reSpace, rePlus reDigit])]

/-- Payment-terms pattern 2 (?:Payment Terms|Terms)(?:\s*:)?\s*([A-Za-z0-9\s]+). -/
def deTerms2 : Re :=
  reCat [reAlts [strCI "Payment Terms", strCI "Terms"], labelBridge,
         .grp 1 (rePlus (.cls (fun c => isAlnumA c ∨ isPySpace c)))]

/-- Payment-terms pattern 3 (?:Net|Due)\s+(\d+). -/
def deTerms3 : Re :=
  reCat [reAlts [strCI "Net", strCI "Due"], rePlus reSpace,
         .grp 1 (rePlus reDigit)]

/-- The amount body \d{1,3}(?:,\d{3})*(?:\.\d{2})?. -/
def deAmount : Re :=
  reCat [reRep reDigit 1 3,
         .star false (reCat [strEx ",", reRep reDigit 3 3]),
         reOpt (reCat [strEx ".", reRep reDigit 2 2])]

/-- Variant 1 of a labelled amount: label bridge, optional dollar outside the
group, the amount captured. -/
def deMoney1 (label : Re) : Re :=
  reCat [label, labelBridge, reOpt (strEx "$"), .star false reSpace,
         .grp 1 deAmount]

/-- Variant 2 of a labelled amount: the dollar sign inside the group. -/
def deMoney2 (label : Re) : Re :=
  reCat [label, labelBridge,
         .grp 1 (reCat [strEx "$", .star false reSpace, deAmount])]

/-- The tax label (?:Tax|Sales Tax)(?:\s*\(\d+(?:\.\d+)?%\))? with its
optional parenthesized rate. -/
def deTaxLabel : Re :=
  reCat [reAlts [strCI "Tax", strCI "Sales Tax"],
         reOpt (reCat [.star false reSpace, strEx "(", rePlus reDigit,
                       reOpt (reCat [strEx ".", rePlus reDigit]),
                       strEx "%", strEx ")"])]

/-- Comments pattern 1 (?:Comments|Notes|Special Instructions|COMMENTS)(?:\s*:)?\s*([A-Za-z0-9\s,.#-]+(?:\n[A-Za-z0-9\s,.#-]+){0,3})
with IGNORECASE and MULTILINE. -/
def deComments1 : Re :=
  reCat [reAlts [strCI "Comments", strCI "Notes", strCI "Special Instructions"],
         labelBridge,
         .grp 1 (reCat [rePlus addrCls,
                        reRep (reCat [strEx "\n", rePlus addrCls]) 0 3])]

/-- Comments pattern 2 (?:...)(?:\s*:)?\s*(.+): the rest of the line (the dot
does not cross newlines without DOTALL). -/
def deComments2 : Re :=
  reCat [reAlts [strCI "Comments", strCI "Notes", strCI "Special Instructions"],
         labelBridge,
         .grp 1 (rePlus (.cls (fun c => c ≠ '\n')))]

end DataExtractor

/-! ## DataExtractor: the extraction methods -/

namespace DataExtractor

/-- First nonempty, long-enough line among the first five that does not look
like a document-type heading: the client-name fallback scan. -/
def scanLines : List String → Nat → Option String
  | [], _ => none
  | _, 0 => none
  | l :: ls, k + 1 =>
    let line := pyStrip l
    if line ≠ "" ∧ line.length > 3 ∧ (reSearch docTypeRe line).isNone then some line
    else scanLines ls k

/-- DataExtractor._extract_client_info. -/
def de_extract_client_info (text : String) (r : ExtractionResult) : ExtractionResult :=
  let r1 :=
    match (firstGroup [(deName1, 1), (deName2, 1), (deName3, 1)] text).map pyStrip with
    | some v => { r with client_info := { r.client_info with name := some v } }
    | none => r
  let r2 :=
    if r1.client_info.name = none ∨ r1.client_info.name = some "" then
      match scanLines (text.splitOn "\n") 5 with
      | some v => { r1 with client_info := { r1.client_info with name := some v } }
      | none => r1
    else r1
  let r3 :=
    match (firstGroup [(dePhone1, 1), (dePhone2, 0)] text).map pyStrip with
    | some v => { r2 with client_info := { r2.client_info with phone := some v } }
    | none => r2
  let r4 :=
    match reGroup sEmailRe text 0 with
    | some v => { r3 with client_info := { r3.client_info with email := some v } }
    | none => r3
  match (firstGroup [(deAddr1, 1), (deAddr2, 1), (deAddr3, 1)] text).map
      (fun a => collapseWs (pyStrip a)) with
  | some v => { r4 with client_info := { r4.client_info with address := some v } }
  | none => r4

/-- The text suffix from the first occurrence of the ship-to name, the scope
of the ship-to phone search; when find misses (it cannot here, the name is a
substring of the text) Python would take the final character. -/
def pyTailFrom (text name : String) : String :=
  match strFind text name with
  | some i => String.mk (text.data.drop i)
  | none => String.mk (text.data.drop (text.data.length - 1))

/-- DataExtractor._extract_ship_to. -/
def de_extract_ship_to (text : String) (r : ExtractionResult) : ExtractionResult :=
  let r1 :=
    match reSearch deShip1 text with
    | some (_, _, cp) =>
      let nm := (cp.lookup 1).map (fun (x : Nat × Nat) => pyStrip (substrPos text x.1 x.2))
      let ad := (cp.lookup 2).map (fun (x : Nat × Nat) => collapseWs (pyStrip (substrPos text x.1 x.2)))
      { r with ship_to := { r.ship_to with name := nm, address := ad } }
    | none =>
      match reGroup deShip2 text 1 with
      | some info0 =>
        let lines := (pyStrip info0).splitOn "\n"
        let named := { r with ship_to := { r.ship_to with name := some (pyStrip (lines.headD "")) } }
        if lines.length > 1 then
          { named with ship_to := { named.ship_to with address := some (String.intercalate " " lines.tail) } }
        else named
      | none => r
  match r1.ship_to.name with
  | some nm =>
    (match (firstGroup [(dePhone1, 1), (dePhone2, 0)] (pyTailFrom text nm)).map pyStrip with
     | some v => { r1 with ship_to := { r1.ship_to with phone := some v } }
     | none => r1)
  | none => r1

/-- DataExtractor._extract_po_details. -/
def de_extract_po_details (text : String) (r : ExtractionResult) : ExtractionResult :=
  let r1 :=
    match reGroup dePoDirect text 0 with
    | some v => { r with po_details := { r.po_details with po_number := some v } }
    | none =>
      match (firstGroup [(dePo1, 1), (dePo2, 1)] text).map pyStrip with
      | some v => { r with po_details := { r.po_details with po_number := some v } }
      | none => r
  let r2 :=
    match (firstGroup
        [(reCat [deCreationLabel, labelBridge, .grp 1 deDateNum], 1),
         (reCat [deCreationLabel, labelBridge, .grp 1 deDateWord], 1)] text).map pyStrip with
    | some v => { r1 with po_details := { r1.po_details with creation_date := some v } }
    | none => r1
  let r3 :=
    match (firstGroup
        [(reCat [deDueLabel, labelBridge, .grp 1 deDateNum], 1),
         (reCat [deDueLabel, labelBridge, .grp 1 deDateWord], 1)] text).map pyStrip with
    | some v => { r2 with po_details := { r2.po_details with due_date := some v } }
    | none => r2
  let r4 :=
    match (firstGroup [(deTerms1, 1), (deTerms2, 1), (deTerms3, 1)] text).map pyStrip with
    | some v => { r3 with po_details := { r3.po_details with payment_terms := some v } }
    | none => r3
  let r5 :=
    match moneyDE (firstGroup [(deMoney1 (strCI "Subtotal"), 1),
                               (deMoney2 (strCI "Subtotal"), 1)] text) with
    | some v => { r4 with po_details := { r4.po_details with subtotal := some v } }
    | none => r4
  let r6 :=
    match moneyDE (firstGroup [(deMoney1 deTaxLabel, 1),
                               (deMoney2 deTaxLabel, 1)] text) with
    | some v => { r5 with po_details := { r5.po_details with tax := some v } }
    | none => r5
  match moneyDE (firstGroup
      [(deMoney1 (reAlts [strCI "Shipping", strCI "Freight", strCI "Delivery"]), 1),
       (deMoney2 (reAlts [strCI "Shipping", strCI "Freight", strCI "Delivery"]), 1)] text) with
  | some v => { r6 with po_details := { r6.po_details with shipping := some v } }
  | none => r6

/-- DataExtractor._extract_order_total. -/
def de_extract_order_total (text : String) (r : ExtractionResult) : ExtractionResult :=
  match moneyDE (firstGroup
      [(deMoney1 (reAlts [strCI "Total", strCI "Grand Total", strCI "Order Total"]), 1),
       (deMoney2 (reAlts [strCI "Total", strCI "Grand Total", strCI "Order Total"]), 1)] text) with
  | some v => { r with po_details := { r.po_details with total_amount := some v } }
  | none => r

/-- DataExtractor._extract_comments. -/
def de_extract_comments (text : String) (r : ExtractionResult) : ExtractionResult :=
  match (firstGroup [(deComments1, 1), (deComments2, 1)] text).map pyStrip with
  | some v => { r with po_details := { r.po_details with comments := some v } }
  | none => r

/-- DataExtractor._extract_from_text, in source order: client info, PO
details, ship to, order total, comments. -/
def de_extract_from_text (text : String) (r : ExtractionResult) : ExtractionResult :=
  de_extract_comments text
    (de_extract_order_total text
      (de_extract_ship_to text
        (de_extract_po_details text
          (de_extract_client_info text r))))

/-- Modelled from the spec: DataExtractor._find_column is missing from
src/data_extractor.py (the file is truncated at the column-identification
block of _extract_line_items); per spec section 4.3 header cells map to
semantic columns by keyword containment. -/
def find_column (headers : List String) (keywords : List String) : Option Nat :=
  headers.findIdx? (fun h => keywords.any (fun k => strHas (lowerStr h) k))

/-- Modelled from the spec: the row loop of DataExtractor._extract_line_items
is missing from the truncated source.  Per spec section 4.3: skip rows whose
cells are all empty after trimming; populate each semantic field from its
mapped in-range column; numeric fields are stripped of non-digit,
non-decimal-point characters and parsed, left absent when empty; a missing
total price is derived as quantity times unit price when both are present;
a row is retained only with (description or item code) and a quantity. -/
def deRowItem (codeCol descCol qtyCol priceCol totalCol : Option Nat)
    (n : Nat) (row : List String) : Option LineItem :=
  if rowAllEmpty row then none
  else
    let deNum := fun (col : Option Nat) =>
      col.bind (fun i =>
        if i < n then
          (fun cleaned => if cleaned = "" then none else pyFloat? cleaned)
            (stripNonNum (pyStrip (row.getD i "")))
        else none)
    let code := strField codeCol n row
    let desc := strField descCol n row
    let qty := deNum qtyCol
    let price := deNum priceCol
    let total0 := deNum totalCol
    let total :=
      match qty, price, total0 with
      | some q, some p, none => some (q * p)
      | _, _, t => t
    let li : LineItem :=
      { description := desc, item_code := code, quantity := qty,
        unit_price := price, total_price := total }
    if keepItem li then some li else none

/-- DataExtractor._extract_line_items: the guard, DataFrame framing and the
first three column identifications are in the source (lines 365 to 381); the
remaining two identifications and the row loop are modelled from the spec as
described at deRowItem. -/
def de_extract_line_items (t : Table) (r : ExtractionResult) : ExtractionResult :=
  if t.length < 2 then r
  else
    let n := ncols t
    let headers := padRow n (t.headD [])
    let codeCol := find_column headers ["item", "code", "item code", "sku", "part", "part number"]
    let descCol := find_column headers ["description", "desc", "item description", "product", "service"]
    let qtyCol := find_column headers ["qty", "quantity", "amount", "units"]
    let priceCol := find_column headers ["unit price", "price", "rate", "cost"]
    let totalCol := find_column headers ["total", "line total", "amount", "extended"]
    let items := t.tail.foldr (fun row acc =>
      match deRowItem codeCol descCol qtyCol priceCol totalCol n (padRow n row) with
      | some li => li :: acc
      | none => acc) []
    { r with line_items := r.line_items ++ items }

/-- DataExtractor._extract_from_tables: classify, then extract from the
chosen table (the classifier never returns an empty table, so the truthiness
test of the source is a presence test). -/
def de_extract_from_tables (tables : List Table) (r : ExtractionResult) : ExtractionResult :=
  if tables = [] then r
  else
    match find_line_items_table tables with
    | some t => de_extract_line_items t r
    | none => r

/-- The fixed tax rate of the class-based Completion and Defaulting step.
Modelled from the spec: the constant itself sits in the truncated part of the
source; section 4.5 only fixes that it is one constant rate. -/
def DE_TAX_RATE : ℚ := 17 / 200

/-- The fixed flat shipping default; same provenance as DE_TAX_RATE. -/
def DE_SHIPPING_DEFAULT : ℚ := 75

/-- The literal PO-number placeholder used when no client name exists; the
spec fixes only that it is one literal. -/
def DE_PO_PLACEHOLDER : String := "PO-UNKNOWN"

/-- Modelled from the spec: DataExtractor._validate_and_clean is missing from
the truncated source.  Spec section 4.5, steps 1 to 8: synthesize the PO
number from the prefix and the first five alphanumerics of the client name
uppercased, or a literal placeholder; default both dates to the current date;
default the payment terms; derive the subtotal from the line items; apply the
fixed tax rate; apply the flat shipping default; recompute the total; inject
one placeholder line item when none exist.  Monetary outputs are rounded to
two decimals at the point of computation. -/
def de_validate_and_clean (today : String) (r : ExtractionResult) : ExtractionResult :=
  let pod := r.po_details
  let pod :=
    if pod.po_number.isNone then
      let v :=
        match r.client_info.name with
        | some n => "PO-" ++ ((alnumOnly n).take 5).toUpper
        | none => DE_PO_PLACEHOLDER
      { pod with po_number := some v }
    else pod
  let pod := if pod.creation_date.isNone then { pod with creation_date := some today } else pod
  let pod := if pod.due_date.isNone then { pod with due_date := some today } else pod
  let pod := if pod.payment_terms.isNone then { pod with payment_terms := some "Net 30" } else pod
  let pod :=
    if pod.subtotal.isNone ∧ r.line_items ≠ [] then
      { pod with subtotal := some (round2 (sumTotalPrices r.line_items)) }
    else pod
  let pod :=
    if pod.tax.isNone then
      match pod.subtotal with
      | some s => { pod with tax := some (round2 (s * DE_TAX_RATE)) }
      | none => pod
    else pod
  let pod := if pod.shipping.isNone then { pod with shipping := some DE_SHIPPING_DEFAULT } else pod
  let pod :=
    if pod.total_amount.isNone then
      let v := round2 (pod.subtotal.getD 0 + pod.tax.getD 0 + pod.shipping.getD 0)
      { pod with total_amount := some v }
    else pod
  let items := if r.line_items = [] then [defaultLineItem] else r.line_items
  { r with po_details := pod, line_items := items }

/-- The whole pipeline of one extract call as a pure function of the parsed
document and the current date. -/
def dePipeline (doc : ParsedDocument) (today : String) : ExtractionResult :=
  de_validate_and_clean today
    (de_extract_from_tables doc.tables
      (de_extract_from_text doc.text emptyResult))

/-- The mutable state of a DataExtractor instance: the fields assigned in
__init__ and reassigned at the top of extract. -/
structure DEState where
  parsed_data : Option ParsedDocument := none
  extracted_data : ExtractionResult := {}
  deriving Repr, DecidableEq

/-- DataExtractor.extract: store the document, reassign extracted_data to a
fresh empty record, run the text pass, the table pass and the cleanup, and
return the result (which is also left in the instance state). -/
def extract (st : DEState) (doc : ParsedDocument) (today : String) :
    DEState × ExtractionResult :=
  let r0 : ExtractionResult := {}
  let r1 := de_extract_from_text doc.text r0
  let r2 := de_extract_from_tables doc.tables r1
  let r3 := de_validate_and_clean today r2
  ({ parsed_data := some doc, extracted_data := r3 }, r3)

end DataExtractor

/-! ## Claim C10 -/

/-- C10: DataExtractor.extract reassigns its result structure before any
extraction, so its returned record is a pure function of the parsed document
and the current date: it does not depend on the instance state, two calls on
the same document and date agree, and processing one document first leaves no
trace in the result for the next. -/
theorem c10_extract_reinitializes (s1 s2 : DataExtractor.DEState)
    (d1 doc : ParsedDocument) (today : String) :
    (DataExtractor.extract s1 doc today).2 = DataExtractor.dePipeline doc today ∧
    (DataExtractor.extract s1 doc today).2 = (DataExtractor.extract s2 doc today).2 ∧
    (DataExtractor.extract (DataExtractor.extract s1 d1 today).1 doc today).2 =
      (DataExtractor.extract s2 doc today).2 :=
  ⟨rfl, rfl, rfl⟩
